import Mathlib

/-!
The collectd memory plugin (`src/memory.c`).

A shallow embedding of the memory plugin and the properties of its
configuration callback, its initialisation and its read callback.

Conventions of the embedding.

* `memory_read` is selected at build time among several platform branches.
  Each branch that is valid C is embedded as a function of its own
  (`memory_read_linux`, `memory_read_kstat`, ...). The `HAVE_HOST_STATISTICS`
  and `HAVE_SYSCTL` branches of `memory_read` have unbalanced parentheses in
  their percentage expressions (lines 249, 250 and 504) and are not embedded.
* The answers of the operating system (file contents, kstat readings, sysctl
  results) are arguments of the functions.
* A tick returns the C return value together with the list of values handed to
  `plugin_dispatch_values`, in order.
* `long long` arithmetic is reduced with `wrap64` (two's complement),
  `u_longlong_t` arithmetic modulo `2 ^ 64`.
* A `gauge_t` is an exact rational or `none` for a value that is not a finite
  number; rounding of floating point operations is not part of the model.
-/

namespace Memory

/-! ## Machine integers and gauges -/

/-- Reduction of an integer to the range of a C `long long`. -/
def wrap64 (x : Int) : Int := (x + 2 ^ 63) % 2 ^ 64 - 2 ^ 63

/-- Reduction of an integer to the range of a C `unsigned long long`. -/
def wrapU64 (x : Int) : Int := x % 2 ^ 64

/-- The C type `gauge_t` (a double): `some q` is the finite number `q`, `none` is a
value that is not a finite number (`NAN`, or the result of a division by zero). -/
abbrev gauge_t := Option ℚ

/-- Conversion of an integer to `gauge_t`. -/
def gauge_of_int (x : Int) : gauge_t := some (x : ℚ)

/-- The C macro `isnan`. -/
def isnan (x : gauge_t) : Bool := x.isNone

/-- Addition of doubles. -/
def gauge_add (a b : gauge_t) : gauge_t :=
  match a, b with
  | some x, some y => some (x + y)
  | _, _ => none

/-- Multiplication of doubles. -/
def gauge_mul (a b : gauge_t) : gauge_t :=
  match a, b with
  | some x, some y => some (x * y)
  | _, _ => none

/-- Division of doubles; a zero divisor gives a value that is not a finite number. -/
def gauge_div (a b : gauge_t) : gauge_t :=
  match a, b with
  | some x, some y => if y = 0 then none else some (x / y)
  | _, _ => none

/-- The expression `(gauge_t) ((float_t) v) / total * 100` of the percentage passes. -/
def percent_of (v total : gauge_t) : gauge_t :=
  gauge_mul (gauge_div v total) (some 100)

/-! ## Dispatched values -/

/-- The part of a `value_list_t` that `memory_submit` fills in per call, that is the
type instance and the single gauge value (host, plugin and type are constant). -/
structure value_list_t where
  type_instance : String
  value : gauge_t
deriving DecidableEq

/-- The function `memory_submit`: one value list handed to `plugin_dispatch_values`. -/
def memory_submit (type_instance : String) (value : gauge_t) : List value_list_t :=
  [{ type_instance := type_instance, value := value }]

/-- Name test used to tell percentage samples from absolute ones. -/
def is_percent (s : value_list_t) : Bool :=
  s.type_instance.toList.take 8 = "percent_".toList

/-! ## Configuration -/

/-- The two static toggles `values_absolute` and `values_percentage`. -/
structure Config where
  values_absolute : Bool
  values_percentage : Bool
deriving DecidableEq

/-- Initial values of the toggles (lines 93 and 94). -/
def Config.default : Config := { values_absolute := true, values_percentage := false }

/-- The libc function `tolower` in the C locale. -/
def tolower (c : Char) : Char :=
  if 'A' ≤ c ∧ c ≤ 'Z' then Char.ofNat (c.toNat + 32) else c

/-- The test `strcasecmp (a, b) == 0`. -/
def strcasecmp_eq (a b : List Char) : Bool :=
  a.map tolower = b.map tolower

/-- The test `strncasecmp (a, b, n) == 0`. -/
def strncasecmp_eq (a b : List Char) (n : Nat) : Bool :=
  (a.take n).map tolower = (b.take n).map tolower

/-- Modelled from the spec: the macro `IS_TRUE` is declared outside `memory.c`; the
spec says each key accepts a boolean-ish string. The words taken as true here are
`true`, `yes` and `on`, compared without regard to case. -/
def IS_TRUE (value : String) : Bool :=
  strcasecmp_eq "true".toList value.toList || strcasecmp_eq "yes".toList value.toList
    || strcasecmp_eq "on".toList value.toList

/-- The function `memory_config` (lines 103 to 124); `is_true` is the macro `IS_TRUE`.
Returns the C return value and the toggles after the call. -/
def memory_config (is_true : String → Bool) (cfg : Config) (key value : String) :
    Int × Config :=
  if strcasecmp_eq key.toList "ValuesAbsolute".toList then
    (0, { cfg with values_absolute := is_true value })
  else if strcasecmp_eq key.toList "ValuesPercentage".toList then
    (0, { cfg with values_percentage := is_true value })
  else
    (-1, cfg)

/-! ## Virtual-file variant (`KERNEL_LINUX`) -/

/-- The libc function `isspace` in the C locale. -/
def isspace (c : Char) : Bool :=
  c = ' ' ∨ c = '\t' ∨ c = '\n' ∨ c = '\x0b' ∨ c = '\x0c' ∨ c = '\r'

/-- The libc function `isdigit`. -/
def isdigit (c : Char) : Bool := '0' ≤ c ∧ c ≤ '9'

/-- Digit loop of `atoll`: accumulates decimal digits until the first other character. -/
def atoll_digits (acc : Nat) : List Char → Nat
  | [] => acc
  | c :: cs => if isdigit c then atoll_digits (acc * 10 + (c.toNat - 48)) cs else acc

/-- Saturation to the range of `long long`, as `strtoll` does. -/
def clamp64 (x : Int) : Int :=
  if x < -(2 ^ 63) then -(2 ^ 63) else if 2 ^ 63 - 1 < x then 2 ^ 63 - 1 else x

/-- The libc function `atoll`: leading white space, an optional sign, decimal digits. -/
def atoll (s : List Char) : Int :=
  match s.dropWhile isspace with
  | '-' :: cs => clamp64 (-(atoll_digits 0 cs : Int))
  | '+' :: cs => clamp64 (atoll_digits 0 cs : Int)
  | cs => clamp64 (atoll_digits 0 cs : Int)

/-- Delimiters of `strsplit`: blank, tab, carriage return, newline. -/
def is_delim (c : Char) : Bool :=
  c = ' ' ∨ c = '\t' ∨ c = '\r' ∨ c = '\n'

/-- Word scanner behind `strsplit`: `cur` is the word being read. -/
def strtok_fields : List Char → List Char → List (List Char)
  | cur, [] => if cur = [] then [] else [cur]
  | cur, c :: cs =>
    if is_delim c then
      (if cur = [] then strtok_fields [] cs else cur :: strtok_fields [] cs)
    else strtok_fields (cur ++ [c]) cs

/-- Modelled from the spec: `strsplit` is defined outside `memory.c`; the spec says the
numeric field is extracted from the line. The fields are the words of the buffer
separated by blanks, tabs, carriage returns and newlines, at most `size` of them. -/
def strsplit (buffer : List Char) (size : Nat) : List (List Char) :=
  (strtok_fields [] buffer).take size

/-- The four local counters filled by the parsing loop. -/
structure meminfo where
  mem_total : Int
  mem_free : Int
  mem_buffered : Int
  mem_cached : Int
deriving DecidableEq

/-- The value stored through `val` for one buffer (lines 356 to 361): `none` when the
buffer has fewer than two fields. -/
def parse_value (buffer : List Char) : Option Int :=
  match strsplit buffer 8 with
  | _ :: f1 :: _ => some (wrap64 (atoll f1 * 1024))
  | _ => none

/-- One iteration of the `fgets` loop (lines 341 to 362). -/
def read_buffer (m : meminfo) (buffer : List Char) : meminfo :=
  if strncasecmp_eq buffer "MemTotal:".toList 9 then
    match parse_value buffer with
    | some v => { m with mem_total := v }
    | none => m
  else if strncasecmp_eq buffer "MemFree:".toList 8 then
    match parse_value buffer with
    | some v => { m with mem_free := v }
    | none => m
  else if strncasecmp_eq buffer "Buffers:".toList 8 then
    match parse_value buffer with
    | some v => { m with mem_buffered := v }
    | none => m
  else if strncasecmp_eq buffer "Cached:".toList 7 then
    match parse_value buffer with
    | some v => { m with mem_cached := v }
    | none => m
  else m

/-- The whole `fgets` loop over the buffers read from `/proc/meminfo`, starting from
the zero initialised counters (lines 327 to 331). -/
def read_meminfo (buffers : List (List Char)) : meminfo :=
  buffers.foldl read_buffer
    { mem_total := 0, mem_free := 0, mem_buffered := 0, mem_cached := 0 }

/-- The function `memory_read`, `KERNEL_LINUX` branch (lines 320 to 389). The argument
`file` is `none` when `fopen` fails, else the buffers returned by `fgets`. -/
def memory_read_linux (cfg : Config) (file : Option (List (List Char))) :
    Int × List value_list_t :=
  match file with
  | none => (-1, [])
  | some buffers =>
    let m := read_meminfo buffers
    let sum := wrap64 (wrap64 (m.mem_free + m.mem_buffered) + m.mem_cached)
    if m.mem_total ≥ sum then
      let mem_used := wrap64 (m.mem_total - sum)
      (0,
        (if cfg.values_absolute then
          memory_submit "used" (gauge_of_int mem_used)
          ++ memory_submit "buffered" (gauge_of_int m.mem_buffered)
          ++ memory_submit "cached" (gauge_of_int m.mem_cached)
          ++ memory_submit "free" (gauge_of_int m.mem_free)
        else [])
        ++
        (if cfg.values_percentage then
          memory_submit "percent_used"
            (percent_of (gauge_of_int mem_used) (gauge_of_int m.mem_total))
          ++ memory_submit "percent_buffered"
            (percent_of (gauge_of_int m.mem_buffered) (gauge_of_int m.mem_total))
          ++ memory_submit "percent_cached"
            (percent_of (gauge_of_int m.mem_cached) (gauge_of_int m.mem_total))
          ++ memory_submit "percent_free"
            (percent_of (gauge_of_int m.mem_free) (gauge_of_int m.mem_total))
        else []))
    else (0, [])

/-- A line of `/proc/meminfo`: the key with its colon, at least one blank, the decimal
number and the unit. -/
def meminfo_line (key : String) (blanks : Nat) (n : Nat) : List Char :=
  key.toList ++ List.replicate (blanks + 1) ' ' ++ Nat.toDigits 10 n ++ " kB\n".toList

/-- The buffer matches none of the four prefixes tested by the parsing loop. -/
def meminfo_ignored (buffer : List Char) : Prop :=
  strncasecmp_eq buffer "MemTotal:".toList 9 = false
    ∧ strncasecmp_eq buffer "MemFree:".toList 8 = false
    ∧ strncasecmp_eq buffer "Buffers:".toList 8 = false
    ∧ strncasecmp_eq buffer "Cached:".toList 7 = false

/-- A `/proc/meminfo` whose `MemTotal`, `MemFree`, `Buffers` and `Cached` lines carry
the numbers `t`, `f`, `b` and `c`: every buffer is such a line or a line the loop
ignores, and each of the four lines occurs. -/
def meminfo_carries (buffers : List (List Char)) (t f b c : Nat) : Prop :=
  (∀ buffer ∈ buffers,
      meminfo_ignored buffer
      ∨ (∃ n, buffer = meminfo_line "MemTotal:" n t)
      ∨ (∃ n, buffer = meminfo_line "MemFree:" n f)
      ∨ (∃ n, buffer = meminfo_line "Buffers:" n b)
      ∨ (∃ n, buffer = meminfo_line "Cached:" n c))
    ∧ (∃ n, meminfo_line "MemTotal:" n t ∈ buffers)
    ∧ (∃ n, meminfo_line "MemFree:" n f ∈ buffers)
    ∧ (∃ n, meminfo_line "Buffers:" n b ∈ buffers)
    ∧ (∃ n, meminfo_line "Cached:" n c ∈ buffers)

/-! ## Kernel-statistics-table variant (`HAVE_LIBKSTAT`) -/

/-- The six readings `get_kstat_value` returns through the handle `ksp`. -/
structure kstat_values where
  pagestotal : Int
  pagesfree : Int
  pageslocked : Int
  pp_kernel : Int
  physmem : Int
  availrmem : Int
deriving DecidableEq

/-- The five local page counters of the branch after reconciliation. -/
structure kstat_pages where
  mem_used : Int
  mem_free : Int
  mem_lock : Int
  mem_kern : Int
  mem_unus : Int
deriving DecidableEq

/-- Lines 407 to 452: the negativity check, `mem_unus`, the small-swap branch and the
kernel/locked split, in pages. The result is `none` when the tick returns `-1`. -/
def kstat_reconcile (k : kstat_values) : Option kstat_pages :=
  let mem_used := k.pagestotal
  let mem_free := k.pagesfree
  let mem_lock := k.pageslocked
  if mem_used < 0 ∨ mem_free < 0 ∨ mem_lock < 0 then none
  else
    let mem_unus := wrap64 (k.physmem - mem_used)
    let uf : Int × Int :=
      if mem_used < wrap64 (mem_free + mem_lock) then (0, k.availrmem)
      else (wrap64 (mem_used - wrap64 (mem_free + mem_lock)), mem_free)
    let kl : Int × Int :=
      if k.pp_kernel < mem_lock then (k.pp_kernel, wrap64 (mem_lock - k.pp_kernel))
      else (mem_lock, 0)
    some { mem_used := uf.1, mem_free := uf.2, mem_lock := kl.2, mem_kern := kl.1,
           mem_unus := mem_unus }

/-- Lines 454 to 458: every page counter is multiplied by `pagesize`. -/
def kstat_scale (p : kstat_pages) (pagesize : Int) : kstat_pages :=
  { mem_used := wrap64 (p.mem_used * pagesize)
    mem_free := wrap64 (p.mem_free * pagesize)
    mem_lock := wrap64 (p.mem_lock * pagesize)
    mem_kern := wrap64 (p.mem_kern * pagesize)
    mem_unus := wrap64 (p.mem_unus * pagesize) }

/-- The divisor `(mem_used + mem_free + mem_lock + mem_kern + mem_unus)` of lines 470
to 474. -/
def kstat_total (b : kstat_pages) : Int :=
  wrap64 (wrap64 (wrap64 (wrap64 (b.mem_used + b.mem_free) + b.mem_lock) + b.mem_kern)
    + b.mem_unus)

/-- The function `memory_read`, `HAVE_LIBKSTAT` branch (lines 391 to 476). `pagesize`
is the static set by `memory_init`; `ksp` is `none` for a `NULL` handle, else the
readings obtained through it. -/
def memory_read_kstat (cfg : Config) (pagesize : Int) (ksp : Option kstat_values) :
    Int × List value_list_t :=
  match ksp with
  | none => (-1, [])
  | some k =>
    match kstat_reconcile k with
    | none => (-1, [])
    | some p =>
      let b := kstat_scale p pagesize
      let total := gauge_of_int (kstat_total b)
      (0,
        (if cfg.values_absolute then
          memory_submit "used" (gauge_of_int b.mem_used)
          ++ memory_submit "free" (gauge_of_int b.mem_free)
          ++ memory_submit "locked" (gauge_of_int b.mem_lock)
          ++ memory_submit "kernel" (gauge_of_int b.mem_kern)
          ++ memory_submit "unusable" (gauge_of_int b.mem_unus)
        else [])
        ++
        (if cfg.values_percentage then
          memory_submit "percent_used" (percent_of (gauge_of_int b.mem_used) total)
          ++ memory_submit "percent_free" (percent_of (gauge_of_int b.mem_free) total)
          ++ memory_submit "percent_locked" (percent_of (gauge_of_int b.mem_lock) total)
          ++ memory_submit "percent_kernel" (percent_of (gauge_of_int b.mem_kern) total)
          ++ memory_submit "percent_unusable" (percent_of (gauge_of_int b.mem_unus) total)
        else []))

/-! ## Named-sysctl variant (`HAVE_SYSCTLBYNAME`) -/

/-- The array `sysctl_keys` without its terminating `NULL` (lines 264 to 274). -/
def sysctl_keys : List String :=
  [ "vm.stats.vm.v_page_size",
    "vm.stats.vm.v_page_count",
    "vm.stats.vm.v_free_count",
    "vm.stats.vm.v_wire_count",
    "vm.stats.vm.v_active_count",
    "vm.stats.vm.v_inactive_count",
    "vm.stats.vm.v_cache_count" ]

/-- First loop (lines 279 to 294): a counter that is read becomes its value, a counter
that cannot be read becomes `NAN`. The argument answers each key with the `int` read,
or `none` when the call fails. -/
def sysctl_read (sysctlbyname : String → Option Int) : List gauge_t :=
  sysctl_keys.map fun key =>
    match sysctlbyname key with
    | some value => gauge_of_int value
    | none => none

/-- Second loop (lines 297 to 299): every entry from index 1 on that is not `NAN` is
multiplied by entry 0. -/
def sysctl_scale : List gauge_t → List gauge_t
  | [] => []
  | v0 :: rest => v0 :: rest.map fun v => if !isnan v then gauge_mul v v0 else v

/-- The local `total` of line 311: the sum of entries 2 to 6. -/
def sysctl_total (sysctl_vals : List gauge_t) : gauge_t :=
  gauge_add (gauge_add (gauge_add (gauge_add (sysctl_vals.getD 2 none)
    (sysctl_vals.getD 3 none)) (sysctl_vals.getD 4 none)) (sysctl_vals.getD 5 none))
    (sysctl_vals.getD 6 none)

/-- The function `memory_read`, `HAVE_SYSCTLBYNAME` branch (lines 254 to 317). -/
def memory_read_sysctlbyname (cfg : Config) (sysctlbyname : String → Option Int) :
    Int × List value_list_t :=
  let sysctl_vals := sysctl_scale (sysctl_read sysctlbyname)
  let v (i : Nat) : gauge_t := sysctl_vals.getD i none
  (0,
    (if cfg.values_absolute then
      memory_submit "free" (v 2)
      ++ memory_submit "wired" (v 3)
      ++ memory_submit "active" (v 4)
      ++ memory_submit "inactive" (v 5)
      ++ memory_submit "cache" (v 6)
    else [])
    ++
    (if cfg.values_percentage then
      let total := sysctl_total sysctl_vals
      memory_submit "percent_free" (percent_of (v 2) total)
      ++ memory_submit "percent_wired" (percent_of (v 3) total)
      ++ memory_submit "percent_active" (percent_of (v 4) total)
      ++ memory_submit "percent_inactive" (percent_of (v 5) total)
      ++ memory_submit "percent_cache" (percent_of (v 6) total)
    else []))

/-! ## Third-party stats-library variant (`HAVE_LIBSTATGRAB`) -/

/-- The fields of `sg_mem_stats` the branch reads (`long long` byte counts). -/
structure sg_mem_stats where
  used : Int
  cache : Int
  free : Int
deriving DecidableEq

/-- The function `memory_read`, `HAVE_LIBSTATGRAB` branch (lines 509 to 526). The
argument is `none` when `sg_get_mem_stats` returns `NULL`. -/
def memory_read_statgrab (cfg : Config) (sg_get_mem_stats : Option sg_mem_stats) :
    Int × List value_list_t :=
  match sg_get_mem_stats with
  | none => (0, [])
  | some ios =>
    let total := gauge_of_int (wrap64 (wrap64 (ios.used + ios.cache) + ios.free))
    (0,
      (if cfg.values_absolute then
        memory_submit "used" (gauge_of_int ios.used)
        ++ memory_submit "cached" (gauge_of_int ios.cache)
        ++ memory_submit "free" (gauge_of_int ios.free)
      else [])
      ++
      (if cfg.values_percentage then
        memory_submit "percent_used" (percent_of (gauge_of_int ios.used) total)
        ++ memory_submit "percent_cached" (percent_of (gauge_of_int ios.cache) total)
        ++ memory_submit "percent_free" (percent_of (gauge_of_int ios.free) total)
      else []))

/-! ## Partition-performance-stats variant (`HAVE_PERFSTAT`) -/

/-- The fields of `perfstat_memory_total_t` the branch reads (`u_longlong_t`). -/
structure perfstat_memory_total_t where
  real_total : Nat
  real_inuse : Nat
  real_free : Nat
  numperm : Nat
  real_system : Nat
  real_process : Nat
deriving DecidableEq

/-- The product `field * pagesize` of lines 539 to 543: the `int` page size is converted
to `u_longlong_t` and the product is taken modulo `2 ^ 64`. -/
def perfstat_scale (field : Nat) (pagesize : Int) : Int :=
  wrapU64 ((field : Int) * wrapU64 pagesize)

/-- The function `memory_read`, `HAVE_PERFSTAT` branch (lines 529 to 552). The argument
`pmemory` is `none` when `perfstat_memory_total` fails. -/
def memory_read_perfstat (cfg : Config) (pagesize : Int)
    (pmemory : Option perfstat_memory_total_t) : Int × List value_list_t :=
  match pmemory with
  | none => (-1, [])
  | some pm =>
    let total := gauge_of_int pm.real_total
    (0,
      (if cfg.values_absolute then
        memory_submit "used" (gauge_of_int (perfstat_scale pm.real_inuse pagesize))
        ++ memory_submit "free" (gauge_of_int (perfstat_scale pm.real_free pagesize))
        ++ memory_submit "cached" (gauge_of_int (perfstat_scale pm.numperm pagesize))
        ++ memory_submit "system" (gauge_of_int (perfstat_scale pm.real_system pagesize))
        ++ memory_submit "user" (gauge_of_int (perfstat_scale pm.real_process pagesize))
      else [])
      ++
      (if cfg.values_percentage then
        memory_submit "percent_used" (percent_of (gauge_of_int pm.real_inuse) total)
        ++ memory_submit "percent_free" (percent_of (gauge_of_int pm.real_free) total)
        ++ memory_submit "percent_cached" (percent_of (gauge_of_int pm.numperm) total)
        ++ memory_submit "percent_system" (percent_of (gauge_of_int pm.real_system) total)
        ++ memory_submit "percent_user" (percent_of (gauge_of_int pm.real_process) total)
      else []))

/-! ## Initialisation -/

/-- The function `memory_init`, `HAVE_PERFSTAT` branch (lines 164 to 167). Returns the
C return value and `pagesize`. -/
def memory_init_perfstat (getpagesize : Int) : Int × Int :=
  (0, getpagesize)

/-! ## Observations and ranges used in the statements -/

/-- All values dispatched under the type instance `name`, in order. -/
def emitted (samples : List value_list_t) (name : String) : List gauge_t :=
  (samples.filter fun s => s.type_instance = name).map fun s => s.value

/-- The type instances of the dispatched values, in order. -/
def names (samples : List value_list_t) : List String :=
  samples.map fun s => s.type_instance

/-- The values of the dispatched percentage samples, in order. -/
def percent_values (samples : List value_list_t) : List gauge_t :=
  (samples.filter is_percent).map fun s => s.value

/-- The dispatched samples that are not percentage samples, in order. -/
def absolute_samples (samples : List value_list_t) : List value_list_t :=
  samples.filter fun s => !is_percent s

/-- The gauge is a finite number that is not negative. -/
def gauge_nonneg (g : gauge_t) : Prop := ∃ q : ℚ, g = some q ∧ 0 ≤ q

/-- The integer `x` lies between `-bound` and `bound`. -/
def within (bound x : Int) : Prop := -bound ≤ x ∧ x ≤ bound

instance (bound x : Int) : Decidable (within bound x) := by
  unfold within
  exact inferInstance

/-- All six kstat readings are at most `2 ^ 40` in absolute value, so that with a page
size of at most `2 ^ 20` no `long long` operation of the tick leaves its range. -/
def kstat_in_range (k : kstat_values) : Prop :=
  within (2 ^ 40) k.pagestotal ∧ within (2 ^ 40) k.pagesfree ∧ within (2 ^ 40) k.pageslocked
    ∧ within (2 ^ 40) k.pp_kernel ∧ within (2 ^ 40) k.physmem ∧ within (2 ^ 40) k.availrmem

instance (k : kstat_values) : Decidable (kstat_in_range k) := by
  unfold kstat_in_range
  exact inferInstance

/-- The integer `x` is a `long long` value. -/
def fits64 (x : Int) : Prop := -(2 ^ 63) ≤ x ∧ x < 2 ^ 63

/-- The reconciliation of lines 423 to 452 written with exact integer arithmetic. -/
def kstat_exact (k : kstat_values) : kstat_pages :=
  { mem_used := if k.pagestotal < k.pagesfree + k.pageslocked then 0
                else k.pagestotal - (k.pagesfree + k.pageslocked)
    mem_free := if k.pagestotal < k.pagesfree + k.pageslocked then k.availrmem
                else k.pagesfree
    mem_lock := if k.pp_kernel < k.pageslocked then k.pageslocked - k.pp_kernel else 0
    mem_kern := if k.pp_kernel < k.pageslocked then k.pp_kernel else k.pageslocked
    mem_unus := k.physmem - k.pagestotal }

/-! ## Auxiliary lemmas -/

theorem wrap64_eq_self {x : Int} (h1 : -(2 ^ 63) ≤ x) (h2 : x < 2 ^ 63) : wrap64 x = x := by
  unfold wrap64
  have e1 : ((2 : Int) ^ 63) = 9223372036854775808 := by norm_num
  have e2 : ((2 : Int) ^ 64) = 18446744073709551616 := by norm_num
  rw [e1, e2] at *
  omega

theorem mul_within {a b x p : Int} (hx : within a x) (hp : within b p) :
    within (a * b) (x * p) := by
  obtain ⟨hx1, hx2⟩ := hx
  obtain ⟨hp1, hp2⟩ := hp
  have ha : |x| ≤ a := abs_le.mpr ⟨hx1, hx2⟩
  have hb : |p| ≤ b := abs_le.mpr ⟨hp1, hp2⟩
  have h : |x * p| ≤ a * b := by
    rw [abs_mul]
    exact mul_le_mul ha hb (abs_nonneg p) (le_trans (abs_nonneg x) ha)
  exact abs_le.mp h

theorem wrap64_mul_eq {x p : Int} (hx : within (7 * 2 ^ 40) x) (hp : within (2 ^ 20) p) :
    wrap64 (x * p) = x * p := by
  have h := mul_within hx hp
  unfold within at h
  have e : ((7 : Int) * 2 ^ 40 * 2 ^ 20) = 8070450532247928832 := by norm_num
  have e63 : ((2 : Int) ^ 63) = 9223372036854775808 := by norm_num
  rw [e] at h
  apply wrap64_eq_self
  · rw [e63]; omega
  · rw [e63]; omega

theorem within_mono {a b x : Int} (hab : a ≤ b) (h : within a x) : within b x :=
  ⟨by linarith [h.1], by linarith [h.2]⟩

/-- Page-level result of the reconciliation when the three checked readings are not
negative and all readings are in range: the `long long` operations are exact. -/
theorem kstat_reconcile_exact (k : kstat_values) (hr : kstat_in_range k)
    (h0 : 0 ≤ k.pagestotal) (h1 : 0 ≤ k.pagesfree) (h2 : 0 ≤ k.pageslocked) :
    kstat_reconcile k = some (kstat_exact k) := by
  obtain ⟨r0, r1, r2, r3, r4, r5⟩ := hr
  unfold within at r0 r1 r2 r3 r4 r5
  have e40 : ((2 : Int) ^ 40) = 1099511627776 := by norm_num
  have e63 : ((2 : Int) ^ 63) = 9223372036854775808 := by norm_num
  rw [e40] at r0 r1 r2 r3 r4 r5
  have w1 : wrap64 (k.pagesfree + k.pageslocked) = k.pagesfree + k.pageslocked :=
    wrap64_eq_self (by rw [e63]; omega) (by rw [e63]; omega)
  have w2 : wrap64 (k.physmem - k.pagestotal) = k.physmem - k.pagestotal :=
    wrap64_eq_self (by rw [e63]; omega) (by rw [e63]; omega)
  have w3 : wrap64 (k.pagestotal - (k.pagesfree + k.pageslocked))
      = k.pagestotal - (k.pagesfree + k.pageslocked) :=
    wrap64_eq_self (by rw [e63]; omega) (by rw [e63]; omega)
  have w4 : wrap64 (k.pageslocked - k.pp_kernel) = k.pageslocked - k.pp_kernel :=
    wrap64_eq_self (by rw [e63]; omega) (by rw [e63]; omega)
  have hneg : ¬ (k.pagestotal < 0 ∨ k.pagesfree < 0 ∨ k.pageslocked < 0) := by omega
  unfold kstat_reconcile kstat_exact
  simp only [w1, w2, w3, w4, if_neg hneg]
  by_cases hs : k.pagestotal < k.pagesfree + k.pageslocked <;>
    by_cases hk : k.pp_kernel < k.pageslocked <;> simp [hs, hk]

/-- Bounds on the exact page counters of in-range readings. -/
theorem kstat_exact_within (k : kstat_values) (hr : kstat_in_range k)
    (h0 : 0 ≤ k.pagestotal) (h1 : 0 ≤ k.pagesfree) (h2 : 0 ≤ k.pageslocked) :
    within (2 ^ 40) (kstat_exact k).mem_used ∧ within (2 ^ 40) (kstat_exact k).mem_free
      ∧ within (2 ^ 41) (kstat_exact k).mem_lock ∧ within (2 ^ 40) (kstat_exact k).mem_kern
      ∧ within (2 ^ 41) (kstat_exact k).mem_unus := by
  obtain ⟨r0, r1, r2, r3, r4, r5⟩ := hr
  unfold within at *
  have e40 : ((2 : Int) ^ 40) = 1099511627776 := by norm_num
  have e41 : ((2 : Int) ^ 41) = 2199023255552 := by norm_num
  rw [e40] at r0 r1 r2 r3 r4 r5
  rw [e40, e41]
  unfold kstat_exact
  simp only
  refine ⟨⟨?_, ?_⟩, ⟨?_, ?_⟩, ⟨?_, ?_⟩, ⟨?_, ?_⟩, ⟨?_, ?_⟩⟩ <;> omega

/-- Scaling and summing page counters with the bounds of `kstat_exact_within` by a page
size of at most `2 ^ 20` is exact. -/
theorem kstat_scale_exact (p : kstat_pages) (pagesize : Int) (hps : within (2 ^ 20) pagesize)
    (hp : within (2 ^ 40) p.mem_used ∧ within (2 ^ 40) p.mem_free ∧ within (2 ^ 41) p.mem_lock
      ∧ within (2 ^ 40) p.mem_kern ∧ within (2 ^ 41) p.mem_unus) :
    kstat_scale p pagesize =
      { mem_used := p.mem_used * pagesize, mem_free := p.mem_free * pagesize,
        mem_lock := p.mem_lock * pagesize, mem_kern := p.mem_kern * pagesize,
        mem_unus := p.mem_unus * pagesize }
    ∧ kstat_total (kstat_scale p pagesize) =
        (p.mem_used + p.mem_free + p.mem_lock + p.mem_kern + p.mem_unus) * pagesize := by
  obtain ⟨a, b, c, d, e⟩ := hp
  have e40 : ((2 : Int) ^ 40) = 1099511627776 := by norm_num
  have e41 : ((2 : Int) ^ 41) = 2199023255552 := by norm_num
  have m1 : within (7 * 2 ^ 40) p.mem_used := within_mono (by norm_num) a
  have m2 : within (7 * 2 ^ 40) p.mem_free := within_mono (by norm_num) b
  have m3 : within (7 * 2 ^ 40) p.mem_lock := within_mono (by norm_num) c
  have m4 : within (7 * 2 ^ 40) p.mem_kern := within_mono (by norm_num) d
  have m5 : within (7 * 2 ^ 40) p.mem_unus := within_mono (by norm_num) e
  have hs : kstat_scale p pagesize =
      { mem_used := p.mem_used * pagesize, mem_free := p.mem_free * pagesize,
        mem_lock := p.mem_lock * pagesize, mem_kern := p.mem_kern * pagesize,
        mem_unus := p.mem_unus * pagesize } := by
    unfold kstat_scale
    rw [wrap64_mul_eq m1 hps, wrap64_mul_eq m2 hps, wrap64_mul_eq m3 hps,
      wrap64_mul_eq m4 hps, wrap64_mul_eq m5 hps]
  refine ⟨hs, ?_⟩
  rw [hs]
  unfold within at a b c d e
  rw [e40] at a b d
  rw [e41] at c e
  have s1 : within (7 * 2 ^ 40) (p.mem_used + p.mem_free) := by
    unfold within; rw [e40]; omega
  have s2 : within (7 * 2 ^ 40) (p.mem_used + p.mem_free + p.mem_lock) := by
    unfold within; rw [e40]; omega
  have s3 : within (7 * 2 ^ 40) (p.mem_used + p.mem_free + p.mem_lock + p.mem_kern) := by
    unfold within; rw [e40]; omega
  have s4 : within (7 * 2 ^ 40)
      (p.mem_used + p.mem_free + p.mem_lock + p.mem_kern + p.mem_unus) := by
    unfold within; rw [e40]; omega
  unfold kstat_total
  simp only
  rw [← add_mul, wrap64_mul_eq s1 hps, ← add_mul, wrap64_mul_eq s2 hps, ← add_mul,
    wrap64_mul_eq s3 hps, ← add_mul, wrap64_mul_eq s4 hps]

/-- The complete result of a kstat tick on in-range readings, in exact arithmetic. -/
theorem memory_read_kstat_exact (cfg : Config) (pagesize : Int) (k : kstat_values)
    (hps : within (2 ^ 20) pagesize) (hr : kstat_in_range k)
    (h0 : 0 ≤ k.pagestotal) (h1 : 0 ≤ k.pagesfree) (h2 : 0 ≤ k.pageslocked) :
    memory_read_kstat cfg pagesize (some k) =
      (0,
        (if cfg.values_absolute then
          [ ⟨"used", gauge_of_int ((kstat_exact k).mem_used * pagesize)⟩,
            ⟨"free", gauge_of_int ((kstat_exact k).mem_free * pagesize)⟩,
            ⟨"locked", gauge_of_int ((kstat_exact k).mem_lock * pagesize)⟩,
            ⟨"kernel", gauge_of_int ((kstat_exact k).mem_kern * pagesize)⟩,
            ⟨"unusable", gauge_of_int ((kstat_exact k).mem_unus * pagesize)⟩ ]
        else [])
        ++
        (if cfg.values_percentage then
          let total := gauge_of_int (((kstat_exact k).mem_used + (kstat_exact k).mem_free
            + (kstat_exact k).mem_lock + (kstat_exact k).mem_kern
            + (kstat_exact k).mem_unus) * pagesize)
          [ ⟨"percent_used", percent_of (gauge_of_int ((kstat_exact k).mem_used * pagesize)) total⟩,
            ⟨"percent_free", percent_of (gauge_of_int ((kstat_exact k).mem_free * pagesize)) total⟩,
            ⟨"percent_locked", percent_of (gauge_of_int ((kstat_exact k).mem_lock * pagesize)) total⟩,
            ⟨"percent_kernel", percent_of (gauge_of_int ((kstat_exact k).mem_kern * pagesize)) total⟩,
            ⟨"percent_unusable",
              percent_of (gauge_of_int ((kstat_exact k).mem_unus * pagesize)) total⟩ ]
        else [])) := by
  have hb := kstat_exact_within k hr h0 h1 h2
  obtain ⟨hs, ht⟩ := kstat_scale_exact (kstat_exact k) pagesize hps hb
  unfold memory_read_kstat
  simp only [kstat_reconcile_exact k hr h0 h1 h2, ht]
  rw [hs]
  simp only [memory_submit, List.singleton_append, List.cons_append, List.nil_append]

/-- C9. In the kernel-statistics-table variant the tick returns `-1` exactly when the
handle is missing or one of the raw readings `pagestotal`, `pagesfree`, `pageslocked` is
negative; an aborted tick dispatches nothing, and every other tick returns `0`, whatever
`pp_kernel`, `physmem`, `availrmem`, the page size and the toggles are. -/
theorem kstat_abort_iff (cfg : Config) (pagesize : Int) (ksp : Option kstat_values) :
    ((memory_read_kstat cfg pagesize ksp).1 = -1 ↔
      (ksp = none ∨ ∃ k, ksp = some k ∧
        (k.pagestotal < 0 ∨ k.pagesfree < 0 ∨ k.pageslocked < 0)))
    ∧ ((memory_read_kstat cfg pagesize ksp).1 = -1 →
        (memory_read_kstat cfg pagesize ksp).2 = [])
    ∧ ((memory_read_kstat cfg pagesize ksp).1 ≠ -1 →
        (memory_read_kstat cfg pagesize ksp).1 = 0) := by
  cases ksp with
  | none => simp [memory_read_kstat]
  | some k =>
    by_cases hneg : k.pagestotal < 0 ∨ k.pagesfree < 0 ∨ k.pageslocked < 0
    · have hrec : kstat_reconcile k = none := by
        unfold kstat_reconcile
        simp only [if_pos hneg]
      simp [memory_read_kstat, hrec, hneg]
    · have hrec : ∃ p, kstat_reconcile k = some p := by
        unfold kstat_reconcile
        simp only [if_neg hneg]
        exact ⟨_, rfl⟩
      obtain ⟨p, hp⟩ := hrec
      simp [memory_read_kstat, hp, hneg]

/-- Instance of C9 at a present handle with a negative `pagesfree` and at one with the
three checked readings non-negative and the other three negative. -/
theorem kstat_abort_iff_witness :
    (memory_read_kstat Config.default 4096 (some ⟨1000, -1, 950, 50, 1200, 80⟩)).1 = -1
    ∧ (memory_read_kstat Config.default 4096 (some ⟨1000, -1, 950, 50, 1200, 80⟩)).2 = []
    ∧ (memory_read_kstat Config.default 4096 (some ⟨1000, 100, 950, -1, -1, -1⟩)).1 = 0 := by
  have h1 := kstat_abort_iff Config.default 4096 (some ⟨1000, -1, 950, 50, 1200, 80⟩)
  have h2 := kstat_abort_iff Config.default 4096 (some ⟨1000, 100, 950, -1, -1, -1⟩)
  have a : (memory_read_kstat Config.default 4096 (some ⟨1000, -1, 950, 50, 1200, 80⟩)).1 = -1 :=
    h1.1.mpr (Or.inr ⟨_, rfl, by decide⟩)
  exact ⟨a, h1.2.1 a, h2.2.2 (by decide)⟩

/-- C2. In the kernel-statistics-table variant, for non-negative `pagestotal`,
`pagesfree`, `pageslocked` (readings and page size in range): the tick returns `0`; when
`pagestotal < pagesfree + pageslocked` the reconciliation yields used `0` pages and free
`availrmem` pages, otherwise used `pagestotal - pagesfree - pageslocked` pages and free
`pagesfree` pages; the values dispatched as `used` and `free` are those page counts
multiplied by the page size. -/
theorem kstat_small_swap (cfg : Config) (pagesize : Int) (k : kstat_values)
    (hps : within (2 ^ 20) pagesize) (hr : kstat_in_range k)
    (h0 : 0 ≤ k.pagestotal) (h1 : 0 ≤ k.pagesfree) (h2 : 0 ≤ k.pageslocked) :
    (memory_read_kstat cfg pagesize (some k)).1 = 0
    ∧ (k.pagestotal < k.pagesfree + k.pageslocked →
        (∃ p, kstat_reconcile k = some p ∧ p.mem_used = 0 ∧ p.mem_free = k.availrmem)
        ∧ (cfg.values_absolute = true →
            emitted (memory_read_kstat cfg pagesize (some k)).2 "used"
              = [gauge_of_int (0 * pagesize)]
            ∧ emitted (memory_read_kstat cfg pagesize (some k)).2 "free"
              = [gauge_of_int (k.availrmem * pagesize)]))
    ∧ (¬ k.pagestotal < k.pagesfree + k.pageslocked →
        (∃ p, kstat_reconcile k = some p
          ∧ p.mem_used = k.pagestotal - k.pagesfree - k.pageslocked
          ∧ p.mem_free = k.pagesfree)
        ∧ (cfg.values_absolute = true →
            emitted (memory_read_kstat cfg pagesize (some k)).2 "used"
              = [gauge_of_int ((k.pagestotal - k.pagesfree - k.pageslocked) * pagesize)]
            ∧ emitted (memory_read_kstat cfg pagesize (some k)).2 "free"
              = [gauge_of_int (k.pagesfree * pagesize)])) := by
  rw [memory_read_kstat_exact cfg pagesize k hps hr h0 h1 h2,
    kstat_reconcile_exact k hr h0 h1 h2]
  refine ⟨rfl, ?_, ?_⟩
  · intro hlt
    refine ⟨⟨_, rfl, by simp [kstat_exact, hlt], by simp [kstat_exact, hlt]⟩, ?_⟩
    intro habs
    cases hv : cfg.values_percentage <;>
      simp [emitted, habs, hv, kstat_exact, hlt]
  · intro hge
    refine ⟨⟨_, rfl, by simp [kstat_exact, hge]; ring, by simp [kstat_exact, hge]⟩, ?_⟩
    intro habs
    have e : k.pagestotal - (k.pagesfree + k.pageslocked)
        = k.pagestotal - k.pagesfree - k.pageslocked := by ring
    cases hv : cfg.values_percentage <;>
      simp [emitted, habs, hv, kstat_exact, hge, e]

/-- Instance of C2 at total `1000`, free `100`, locked `950`, `availrmem` `80` and a
page size of `4096`: used `0` pages, free `80` pages, no failure. -/
theorem kstat_small_swap_witness :
    (memory_read_kstat Config.default 4096 (some ⟨1000, 100, 950, 50, 1200, 80⟩)).1 = 0
    ∧ (∃ p, kstat_reconcile ⟨1000, 100, 950, 50, 1200, 80⟩ = some p
        ∧ p.mem_used = 0 ∧ p.mem_free = 80)
    ∧ emitted (memory_read_kstat Config.default 4096 (some ⟨1000, 100, 950, 50, 1200, 80⟩)).2
        "used" = [gauge_of_int (0 * 4096)]
    ∧ emitted (memory_read_kstat Config.default 4096 (some ⟨1000, 100, 950, 50, 1200, 80⟩)).2
        "free" = [gauge_of_int (80 * 4096)] := by
  have h := kstat_small_swap Config.default 4096 ⟨1000, 100, 950, 50, 1200, 80⟩
    (by decide) (by decide) (by decide) (by decide) (by decide)
  exact ⟨h.1, (h.2.1 (by decide)).1, (h.2.1 (by decide)).2 rfl⟩

/-- C3. In the kernel-statistics-table variant, on a tick that is not aborted (readings
and page size in range): when `pp_kernel < pageslocked` the split is kernel `pp_kernel`
pages and locked `pageslocked - pp_kernel` pages, otherwise (equality included) kernel
`pageslocked` pages and locked `0` pages; the values dispatched as `kernel` and `locked`
are those page counts multiplied by the page size. -/
theorem kstat_kernel_split (cfg : Config) (pagesize : Int) (k : kstat_values)
    (hps : within (2 ^ 20) pagesize) (hr : kstat_in_range k)
    (h0 : 0 ≤ k.pagestotal) (h1 : 0 ≤ k.pagesfree) (h2 : 0 ≤ k.pageslocked) :
    (k.pp_kernel < k.pageslocked →
        (∃ p, kstat_reconcile k = some p ∧ p.mem_kern = k.pp_kernel
          ∧ p.mem_lock = k.pageslocked - k.pp_kernel)
        ∧ (cfg.values_absolute = true →
            emitted (memory_read_kstat cfg pagesize (some k)).2 "kernel"
              = [gauge_of_int (k.pp_kernel * pagesize)]
            ∧ emitted (memory_read_kstat cfg pagesize (some k)).2 "locked"
              = [gauge_of_int ((k.pageslocked - k.pp_kernel) * pagesize)]))
    ∧ (k.pageslocked ≤ k.pp_kernel →
        (∃ p, kstat_reconcile k = some p ∧ p.mem_kern = k.pageslocked ∧ p.mem_lock = 0)
        ∧ (cfg.values_absolute = true →
            emitted (memory_read_kstat cfg pagesize (some k)).2 "kernel"
              = [gauge_of_int (k.pageslocked * pagesize)]
            ∧ emitted (memory_read_kstat cfg pagesize (some k)).2 "locked"
              = [gauge_of_int (0 * pagesize)])) := by
  rw [memory_read_kstat_exact cfg pagesize k hps hr h0 h1 h2,
    kstat_reconcile_exact k hr h0 h1 h2]
  refine ⟨?_, ?_⟩
  · intro hlt
    refine ⟨⟨_, rfl, by simp [kstat_exact, hlt], by simp [kstat_exact, hlt]⟩, ?_⟩
    intro habs
    cases hv : cfg.values_percentage <;>
      simp [emitted, habs, hv, kstat_exact, hlt]
  · intro hge
    have hnl : ¬ k.pp_kernel < k.pageslocked := not_lt.mpr hge
    refine ⟨⟨_, rfl, by simp [kstat_exact, hnl], by simp [kstat_exact, hnl]⟩, ?_⟩
    intro habs
    cases hv : cfg.values_percentage <;>
      simp [emitted, habs, hv, kstat_exact, hnl]

/-- Instances of C3 at locked `200` with `pp_kernel` `50` (kernel `50`, locked `150`)
and with `pp_kernel` `300` (kernel `200`, locked `0`). -/
theorem kstat_kernel_split_witness :
    ((∃ p, kstat_reconcile ⟨1000, 100, 200, 50, 1200, 80⟩ = some p
        ∧ p.mem_kern = 50 ∧ p.mem_lock = 200 - 50)
      ∧ emitted (memory_read_kstat Config.default 4096 (some ⟨1000, 100, 200, 50, 1200, 80⟩)).2
          "kernel" = [gauge_of_int (50 * 4096)]
      ∧ emitted (memory_read_kstat Config.default 4096 (some ⟨1000, 100, 200, 50, 1200, 80⟩)).2
          "locked" = [gauge_of_int ((200 - 50) * 4096)])
    ∧ ((∃ p, kstat_reconcile ⟨1000, 100, 200, 300, 1200, 80⟩ = some p
        ∧ p.mem_kern = 200 ∧ p.mem_lock = 0)
      ∧ emitted (memory_read_kstat Config.default 4096 (some ⟨1000, 100, 200, 300, 1200, 80⟩)).2
          "kernel" = [gauge_of_int (200 * 4096)]
      ∧ emitted (memory_read_kstat Config.default 4096 (some ⟨1000, 100, 200, 300, 1200, 80⟩)).2
          "locked" = [gauge_of_int (0 * 4096)]) := by
  have ha := kstat_kernel_split Config.default 4096 ⟨1000, 100, 200, 50, 1200, 80⟩
    (by decide) (by decide) (by decide) (by decide) (by decide)
  have hb := kstat_kernel_split Config.default 4096 ⟨1000, 100, 200, 300, 1200, 80⟩
    (by decide) (by decide) (by decide) (by decide) (by decide)
  exact ⟨⟨(ha.1 (by decide)).1, (ha.1 (by decide)).2 rfl⟩,
    ⟨(hb.2 (by decide)).1, (hb.2 (by decide)).2 rfl⟩⟩

theorem gauge_nonneg_of_int {x : Int} (h : 0 ≤ x) : gauge_nonneg (gauge_of_int x) :=
  ⟨(x : ℚ), rfl, by exact_mod_cast h⟩

theorem absolute_samples_linux (cfg : Config) (buffers : List (List Char)) :
    absolute_samples (memory_read_linux cfg (some buffers)).2 =
      if (read_meminfo buffers).mem_total ≥
          wrap64 (wrap64 ((read_meminfo buffers).mem_free + (read_meminfo buffers).mem_buffered)
            + (read_meminfo buffers).mem_cached) ∧ cfg.values_absolute = true then
        [ ⟨"used", gauge_of_int (wrap64 ((read_meminfo buffers).mem_total -
            wrap64 (wrap64 ((read_meminfo buffers).mem_free + (read_meminfo buffers).mem_buffered)
              + (read_meminfo buffers).mem_cached)))⟩,
          ⟨"buffered", gauge_of_int (read_meminfo buffers).mem_buffered⟩,
          ⟨"cached", gauge_of_int (read_meminfo buffers).mem_cached⟩,
          ⟨"free", gauge_of_int (read_meminfo buffers).mem_free⟩ ]
      else [] := by
  unfold memory_read_linux
  simp only []
  by_cases h : (read_meminfo buffers).mem_total ≥
          wrap64 (wrap64 ((read_meminfo buffers).mem_free + (read_meminfo buffers).mem_buffered)
            + (read_meminfo buffers).mem_cached)
  · cases ha : cfg.values_absolute <;> cases hv : cfg.values_percentage <;>
      simp +decide [h, absolute_samples, is_percent, memory_submit]
  · simp [h, absolute_samples]

theorem percent_samples_linux (cfg : Config) (buffers : List (List Char)) :
    (memory_read_linux cfg (some buffers)).2.filter is_percent =
      if (read_meminfo buffers).mem_total ≥
          wrap64 (wrap64 ((read_meminfo buffers).mem_free + (read_meminfo buffers).mem_buffered)
            + (read_meminfo buffers).mem_cached) ∧ cfg.values_percentage = true then
        [ ⟨"percent_used", percent_of (gauge_of_int (wrap64 ((read_meminfo buffers).mem_total -
            wrap64 (wrap64 ((read_meminfo buffers).mem_free + (read_meminfo buffers).mem_buffered)
              + (read_meminfo buffers).mem_cached))))
            (gauge_of_int (read_meminfo buffers).mem_total)⟩,
          ⟨"percent_buffered", percent_of (gauge_of_int (read_meminfo buffers).mem_buffered)
            (gauge_of_int (read_meminfo buffers).mem_total)⟩,
          ⟨"percent_cached", percent_of (gauge_of_int (read_meminfo buffers).mem_cached)
            (gauge_of_int (read_meminfo buffers).mem_total)⟩,
          ⟨"percent_free", percent_of (gauge_of_int (read_meminfo buffers).mem_free)
            (gauge_of_int (read_meminfo buffers).mem_total)⟩ ]
      else [] := by
  unfold memory_read_linux
  simp only []
  by_cases h : (read_meminfo buffers).mem_total ≥
          wrap64 (wrap64 ((read_meminfo buffers).mem_free + (read_meminfo buffers).mem_buffered)
            + (read_meminfo buffers).mem_cached)
  · cases ha : cfg.values_absolute <;> cases hv : cfg.values_percentage <;>
      simp +decide [h, is_percent, memory_submit]
  · simp [h]

theorem absolute_samples_kstat (cfg : Config) (pagesize : Int) (k : kstat_values)
    (p : kstat_pages) (hp : kstat_reconcile k = some p) :
    absolute_samples (memory_read_kstat cfg pagesize (some k)).2 =
      if cfg.values_absolute = true then
        [ ⟨"used", gauge_of_int (kstat_scale p pagesize).mem_used⟩,
          ⟨"free", gauge_of_int (kstat_scale p pagesize).mem_free⟩,
          ⟨"locked", gauge_of_int (kstat_scale p pagesize).mem_lock⟩,
          ⟨"kernel", gauge_of_int (kstat_scale p pagesize).mem_kern⟩,
          ⟨"unusable", gauge_of_int (kstat_scale p pagesize).mem_unus⟩ ]
      else [] := by
  unfold memory_read_kstat
  simp only [hp]
  cases ha : cfg.values_absolute <;> cases hv : cfg.values_percentage <;>
    simp +decide [absolute_samples, is_percent, memory_submit]

theorem percent_samples_kstat (cfg : Config) (pagesize : Int) (k : kstat_values)
    (p : kstat_pages) (hp : kstat_reconcile k = some p) :
    (memory_read_kstat cfg pagesize (some k)).2.filter is_percent =
      if cfg.values_percentage = true then
        [ ⟨"percent_used", percent_of (gauge_of_int (kstat_scale p pagesize).mem_used)
            (gauge_of_int (kstat_total (kstat_scale p pagesize)))⟩,
          ⟨"percent_free", percent_of (gauge_of_int (kstat_scale p pagesize).mem_free)
            (gauge_of_int (kstat_total (kstat_scale p pagesize)))⟩,
          ⟨"percent_locked", percent_of (gauge_of_int (kstat_scale p pagesize).mem_lock)
            (gauge_of_int (kstat_total (kstat_scale p pagesize)))⟩,
          ⟨"percent_kernel", percent_of (gauge_of_int (kstat_scale p pagesize).mem_kern)
            (gauge_of_int (kstat_total (kstat_scale p pagesize)))⟩,
          ⟨"percent_unusable", percent_of (gauge_of_int (kstat_scale p pagesize).mem_unus)
            (gauge_of_int (kstat_total (kstat_scale p pagesize)))⟩ ]
      else [] := by
  unfold memory_read_kstat
  simp only [hp]
  cases ha : cfg.values_absolute <;> cases hv : cfg.values_percentage <;>
    simp +decide [is_percent, memory_submit]

theorem absolute_samples_sysctlbyname (cfg : Config) (sysctlbyname : String → Option Int) :
    absolute_samples (memory_read_sysctlbyname cfg sysctlbyname).2 =
      if cfg.values_absolute = true then
        [ ⟨"free", (sysctl_scale (sysctl_read sysctlbyname)).getD 2 none⟩,
          ⟨"wired", (sysctl_scale (sysctl_read sysctlbyname)).getD 3 none⟩,
          ⟨"active", (sysctl_scale (sysctl_read sysctlbyname)).getD 4 none⟩,
          ⟨"inactive", (sysctl_scale (sysctl_read sysctlbyname)).getD 5 none⟩,
          ⟨"cache", (sysctl_scale (sysctl_read sysctlbyname)).getD 6 none⟩ ]
      else [] := by
  unfold memory_read_sysctlbyname
  cases ha : cfg.values_absolute <;> cases hv : cfg.values_percentage <;>
    simp +decide [absolute_samples, is_percent, memory_submit]

theorem percent_samples_sysctlbyname (cfg : Config) (sysctlbyname : String → Option Int) :
    (memory_read_sysctlbyname cfg sysctlbyname).2.filter is_percent =
      if cfg.values_percentage = true then
        [ ⟨"percent_free", percent_of ((sysctl_scale (sysctl_read sysctlbyname)).getD 2 none)
            (sysctl_total (sysctl_scale (sysctl_read sysctlbyname)))⟩,
          ⟨"percent_wired", percent_of ((sysctl_scale (sysctl_read sysctlbyname)).getD 3 none)
            (sysctl_total (sysctl_scale (sysctl_read sysctlbyname)))⟩,
          ⟨"percent_active", percent_of ((sysctl_scale (sysctl_read sysctlbyname)).getD 4 none)
            (sysctl_total (sysctl_scale (sysctl_read sysctlbyname)))⟩,
          ⟨"percent_inactive", percent_of ((sysctl_scale (sysctl_read sysctlbyname)).getD 5 none)
            (sysctl_total (sysctl_scale (sysctl_read sysctlbyname)))⟩,
          ⟨"percent_cache", percent_of ((sysctl_scale (sysctl_read sysctlbyname)).getD 6 none)
            (sysctl_total (sysctl_scale (sysctl_read sysctlbyname)))⟩ ]
      else [] := by
  unfold memory_read_sysctlbyname
  cases ha : cfg.values_absolute <;> cases hv : cfg.values_percentage <;>
    simp +decide [is_percent, memory_submit]

theorem absolute_samples_statgrab (cfg : Config) (ios : sg_mem_stats) :
    absolute_samples (memory_read_statgrab cfg (some ios)).2 =
      if cfg.values_absolute = true then
        [ ⟨"used", gauge_of_int ios.used⟩, ⟨"cached", gauge_of_int ios.cache⟩,
          ⟨"free", gauge_of_int ios.free⟩ ]
      else [] := by
  unfold memory_read_statgrab
  cases ha : cfg.values_absolute <;> cases hv : cfg.values_percentage <;>
    simp +decide [absolute_samples, is_percent, memory_submit]

theorem percent_samples_statgrab (cfg : Config) (ios : sg_mem_stats) :
    (memory_read_statgrab cfg (some ios)).2.filter is_percent =
      if cfg.values_percentage = true then
        [ ⟨"percent_used", percent_of (gauge_of_int ios.used)
            (gauge_of_int (wrap64 (wrap64 (ios.used + ios.cache) + ios.free)))⟩,
          ⟨"percent_cached", percent_of (gauge_of_int ios.cache)
            (gauge_of_int (wrap64 (wrap64 (ios.used + ios.cache) + ios.free)))⟩,
          ⟨"percent_free", percent_of (gauge_of_int ios.free)
            (gauge_of_int (wrap64 (wrap64 (ios.used + ios.cache) + ios.free)))⟩ ]
      else [] := by
  unfold memory_read_statgrab
  cases ha : cfg.values_absolute <;> cases hv : cfg.values_percentage <;>
    simp +decide [is_percent, memory_submit]

theorem absolute_samples_perfstat (cfg : Config) (pagesize : Int)
    (pm : perfstat_memory_total_t) :
    absolute_samples (memory_read_perfstat cfg pagesize (some pm)).2 =
      if cfg.values_absolute = true then
        [ ⟨"used", gauge_of_int (perfstat_scale pm.real_inuse pagesize)⟩,
          ⟨"free", gauge_of_int (perfstat_scale pm.real_free pagesize)⟩,
          ⟨"cached", gauge_of_int (perfstat_scale pm.numperm pagesize)⟩,
          ⟨"system", gauge_of_int (perfstat_scale pm.real_system pagesize)⟩,
          ⟨"user", gauge_of_int (perfstat_scale pm.real_process pagesize)⟩ ]
      else [] := by
  unfold memory_read_perfstat
  cases ha : cfg.values_absolute <;> cases hv : cfg.values_percentage <;>
    simp +decide [absolute_samples, is_percent, memory_submit]

theorem percent_samples_perfstat (cfg : Config) (pagesize : Int)
    (pm : perfstat_memory_total_t) :
    (memory_read_perfstat cfg pagesize (some pm)).2.filter is_percent =
      if cfg.values_percentage = true then
        [ ⟨"percent_used", percent_of (gauge_of_int pm.real_inuse) (gauge_of_int pm.real_total)⟩,
          ⟨"percent_free", percent_of (gauge_of_int pm.real_free) (gauge_of_int pm.real_total)⟩,
          ⟨"percent_cached", percent_of (gauge_of_int pm.numperm) (gauge_of_int pm.real_total)⟩,
          ⟨"percent_system",
            percent_of (gauge_of_int pm.real_system) (gauge_of_int pm.real_total)⟩,
          ⟨"percent_user",
            percent_of (gauge_of_int pm.real_process) (gauge_of_int pm.real_total)⟩ ]
      else [] := by
  unfold memory_read_perfstat
  cases ha : cfg.values_absolute <;> cases hv : cfg.values_percentage <;>
    simp +decide [is_percent, memory_submit]

theorem wrap64_range (x : Int) : -(2 ^ 63) ≤ wrap64 x ∧ wrap64 x < 2 ^ 63 := by
  unfold wrap64
  have e1 : ((2 : Int) ^ 63) = 9223372036854775808 := by norm_num
  have e2 : ((2 : Int) ^ 64) = 18446744073709551616 := by norm_num
  rw [e1, e2]
  omega

theorem parse_value_fits (buffer : List Char) (v : Int) (h : parse_value buffer = some v) :
    fits64 v := by
  unfold parse_value at h
  split at h
  · injection h with h
    rw [← h]
    exact wrap64_range _
  · exact absurd h (by simp)

theorem read_buffer_fits (m : meminfo) (buffer : List Char)
    (hm : fits64 m.mem_total ∧ fits64 m.mem_free ∧ fits64 m.mem_buffered ∧ fits64 m.mem_cached) :
    fits64 (read_buffer m buffer).mem_total ∧ fits64 (read_buffer m buffer).mem_free
      ∧ fits64 (read_buffer m buffer).mem_buffered
      ∧ fits64 (read_buffer m buffer).mem_cached := by
  obtain ⟨h1, h2, h3, h4⟩ := hm
  unfold read_buffer
  cases hp : parse_value buffer with
  | none => split_ifs <;> exact ⟨h1, h2, h3, h4⟩
  | some v =>
    have hv := parse_value_fits buffer v hp
    split_ifs
    · exact ⟨hv, h2, h3, h4⟩
    · exact ⟨h1, hv, h3, h4⟩
    · exact ⟨h1, h2, hv, h4⟩
    · exact ⟨h1, h2, h3, hv⟩
    · exact ⟨h1, h2, h3, h4⟩

theorem foldl_read_buffer_fits (buffers : List (List Char)) :
    ∀ m : meminfo,
      (fits64 m.mem_total ∧ fits64 m.mem_free ∧ fits64 m.mem_buffered ∧ fits64 m.mem_cached) →
      fits64 (buffers.foldl read_buffer m).mem_total
        ∧ fits64 (buffers.foldl read_buffer m).mem_free
        ∧ fits64 (buffers.foldl read_buffer m).mem_buffered
        ∧ fits64 (buffers.foldl read_buffer m).mem_cached := by
  induction buffers with
  | nil => intro m hm; exact hm
  | cons b bs ih =>
    intro m hm
    rw [List.foldl_cons]
    exact ih _ (read_buffer_fits m b hm)

/-- The four counters left by the parsing loop are `long long` values. -/
theorem read_meminfo_fits (buffers : List (List Char)) :
    fits64 (read_meminfo buffers).mem_total ∧ fits64 (read_meminfo buffers).mem_free
      ∧ fits64 (read_meminfo buffers).mem_buffered
      ∧ fits64 (read_meminfo buffers).mem_cached := by
  unfold read_meminfo
  apply foldl_read_buffer_fits
  unfold fits64
  norm_num

/-- Failure of C5 as stated: in the kernel-statistics-table variant the six readings
`pagestotal = 200`, `pagesfree = 50`, `pageslocked = 50`, `pp_kernel = 10`,
`physmem = 100`, `availrmem = 80` are all non-negative and in range, the page size is
`4096`, and the value dispatched as `unusable` is `(100 - 200) * 4096 = -409600`. -/
theorem kstat_unusable_negative :
    kstat_in_range ⟨200, 50, 50, 10, 100, 80⟩
    ∧ (memory_read_kstat Config.default 4096 (some ⟨200, 50, 50, 10, 100, 80⟩)).1 = 0
    ∧ emitted (memory_read_kstat Config.default 4096 (some ⟨200, 50, 50, 10, 100, 80⟩)).2
        "unusable" = [some (-409600)]
    ∧ ¬ gauge_nonneg (some (-409600)) := by
  refine ⟨by decide, by decide, by decide, ?_⟩
  rintro ⟨q, hq, hq0⟩
  injection hq with hq
  rw [← hq] at hq0
  norm_num at hq0

/-- C5, amended. With non-negative raw counters, a positive page size and no integer
overflow, every value dispatched under an absolute category name is a non-negative
number in the virtual-file, named-sysctl, stats-library and partition-performance-stats
variants, and in the kernel-statistics-table variant for `used`, `free`, `locked` and
`kernel`; the `unusable` value of that variant is `(physmem - pagestotal) * pagesize`,
which is non-negative when `pagestotal ≤ physmem`. -/
theorem absolute_values_nonneg :
    (∀ (cfg : Config) (buffers : List (List Char)),
      0 ≤ (read_meminfo buffers).mem_total →
      0 ≤ (read_meminfo buffers).mem_free ∧ (read_meminfo buffers).mem_free ≤ 2 ^ 61 →
      0 ≤ (read_meminfo buffers).mem_buffered ∧ (read_meminfo buffers).mem_buffered ≤ 2 ^ 61 →
      0 ≤ (read_meminfo buffers).mem_cached ∧ (read_meminfo buffers).mem_cached ≤ 2 ^ 61 →
      ∀ s ∈ absolute_samples (memory_read_linux cfg (some buffers)).2, gauge_nonneg s.value)
    ∧ (∀ (cfg : Config) (pagesize : Int) (k : kstat_values),
      0 < pagesize → pagesize ≤ 2 ^ 20 → kstat_in_range k →
      0 ≤ k.pagestotal → 0 ≤ k.pagesfree → 0 ≤ k.pageslocked →
      0 ≤ k.pp_kernel → 0 ≤ k.physmem → 0 ≤ k.availrmem →
      (∀ s ∈ absolute_samples (memory_read_kstat cfg pagesize (some k)).2,
          s.type_instance ≠ "unusable" → gauge_nonneg s.value)
      ∧ (cfg.values_absolute = true →
          emitted (memory_read_kstat cfg pagesize (some k)).2 "unusable"
            = [gauge_of_int ((k.physmem - k.pagestotal) * pagesize)])
      ∧ (k.pagestotal ≤ k.physmem →
          ∀ s ∈ absolute_samples (memory_read_kstat cfg pagesize (some k)).2,
            gauge_nonneg s.value))
    ∧ (∀ (cfg : Config) (sysctlbyname : String → Option Int),
      (∀ key ∈ sysctl_keys, ∃ v : Int, sysctlbyname key = some v ∧ 0 ≤ v) →
      ∀ s ∈ absolute_samples (memory_read_sysctlbyname cfg sysctlbyname).2,
        gauge_nonneg s.value)
    ∧ (∀ (cfg : Config) (ios : sg_mem_stats),
      0 ≤ ios.used → 0 ≤ ios.cache → 0 ≤ ios.free →
      ∀ s ∈ absolute_samples (memory_read_statgrab cfg (some ios)).2, gauge_nonneg s.value)
    ∧ (∀ (cfg : Config) (pagesize : Int) (pm : perfstat_memory_total_t),
      ∀ s ∈ absolute_samples (memory_read_perfstat cfg pagesize (some pm)).2,
        gauge_nonneg s.value) := by
  have e61 : ((2 : Int) ^ 61) = 2305843009213693952 := by norm_num
  have e63 : ((2 : Int) ^ 63) = 9223372036854775808 := by norm_num
  refine ⟨?_, ?_, ?_, ?_, ?_⟩
  · intro cfg buffers ht hf hb hc s hs
    rw [absolute_samples_linux] at hs
    rw [e61] at hf hb hc
    have w1 : wrap64 ((read_meminfo buffers).mem_free + (read_meminfo buffers).mem_buffered)
        = (read_meminfo buffers).mem_free + (read_meminfo buffers).mem_buffered :=
      wrap64_eq_self (by rw [e63]; omega) (by rw [e63]; omega)
    have w2 : wrap64 ((read_meminfo buffers).mem_free + (read_meminfo buffers).mem_buffered
        + (read_meminfo buffers).mem_cached)
        = (read_meminfo buffers).mem_free + (read_meminfo buffers).mem_buffered
          + (read_meminfo buffers).mem_cached :=
      wrap64_eq_self (by rw [e63]; omega) (by rw [e63]; omega)
    rw [w1, w2] at hs
    split_ifs at hs with hc2
    · obtain ⟨hge, _⟩ := hc2
      have hT := (read_meminfo_fits buffers).1
      unfold fits64 at hT
      rw [e63] at hT
      have w3 : wrap64 ((read_meminfo buffers).mem_total
          - ((read_meminfo buffers).mem_free + (read_meminfo buffers).mem_buffered
            + (read_meminfo buffers).mem_cached))
          = (read_meminfo buffers).mem_total
          - ((read_meminfo buffers).mem_free + (read_meminfo buffers).mem_buffered
            + (read_meminfo buffers).mem_cached) :=
        wrap64_eq_self (by rw [e63]; omega) (by rw [e63]; omega)
      rw [w3] at hs
      simp only [List.mem_cons, List.mem_singleton, List.not_mem_nil, or_false] at hs
      rcases hs with rfl | rfl | rfl | rfl
      · exact gauge_nonneg_of_int (by omega)
      · exact gauge_nonneg_of_int hb.1
      · exact gauge_nonneg_of_int hc.1
      · exact gauge_nonneg_of_int hf.1
    · simp at hs
  · intro cfg pagesize k hp0 hp1 hr h0 h1 h2 h3 h4 h5
    have hps : within (2 ^ 20) pagesize := ⟨by linarith, hp1⟩
    have hex := kstat_reconcile_exact k hr h0 h1 h2
    obtain ⟨hsc, _⟩ := kstat_scale_exact (kstat_exact k) pagesize hps
      (kstat_exact_within k hr h0 h1 h2)
    have hu : 0 ≤ (kstat_exact k).mem_used := by
      unfold kstat_exact; simp only; split_ifs <;> omega
    have hf : 0 ≤ (kstat_exact k).mem_free := by
      unfold kstat_exact; simp only; split_ifs <;> omega
    have hl : 0 ≤ (kstat_exact k).mem_lock := by
      unfold kstat_exact; simp only; split_ifs <;> omega
    have hk : 0 ≤ (kstat_exact k).mem_kern := by
      unfold kstat_exact; simp only; split_ifs <;> omega
    have hn : (kstat_exact k).mem_unus = k.physmem - k.pagestotal := rfl
    have hpos : 0 ≤ pagesize := le_of_lt hp0
    refine ⟨?_, ?_, ?_⟩
    · intro s hs hne
      rw [absolute_samples_kstat cfg pagesize k _ hex, hsc] at hs
      split_ifs at hs
      · simp only [List.mem_cons, List.mem_singleton, List.not_mem_nil, or_false] at hs
        rcases hs with rfl | rfl | rfl | rfl | rfl
        · exact gauge_nonneg_of_int (mul_nonneg hu hpos)
        · exact gauge_nonneg_of_int (mul_nonneg hf hpos)
        · exact gauge_nonneg_of_int (mul_nonneg hl hpos)
        · exact gauge_nonneg_of_int (mul_nonneg hk hpos)
        · exact absurd rfl hne
      · simp at hs
    · intro habs
      rw [memory_read_kstat_exact cfg pagesize k hps hr h0 h1 h2]
      cases hv : cfg.values_percentage <;> simp [emitted, habs, hv, hn]
    · intro hle s hs
      rw [absolute_samples_kstat cfg pagesize k _ hex, hsc] at hs
      split_ifs at hs
      · simp only [List.mem_cons, List.mem_singleton, List.not_mem_nil, or_false] at hs
        rcases hs with rfl | rfl | rfl | rfl | rfl
        · exact gauge_nonneg_of_int (mul_nonneg hu hpos)
        · exact gauge_nonneg_of_int (mul_nonneg hf hpos)
        · exact gauge_nonneg_of_int (mul_nonneg hl hpos)
        · exact gauge_nonneg_of_int (mul_nonneg hk hpos)
        · exact gauge_nonneg_of_int (mul_nonneg (by rw [hn]; omega) hpos)
      · simp at hs
  · intro cfg f hall s hs
    obtain ⟨v0, e0, n0⟩ := hall "vm.stats.vm.v_page_size" (by simp [sysctl_keys])
    obtain ⟨v2, e2, n2⟩ := hall "vm.stats.vm.v_free_count" (by simp [sysctl_keys])
    obtain ⟨v3, e3, n3⟩ := hall "vm.stats.vm.v_wire_count" (by simp [sysctl_keys])
    obtain ⟨v4, e4, n4⟩ := hall "vm.stats.vm.v_active_count" (by simp [sysctl_keys])
    obtain ⟨v5, e5, n5⟩ := hall "vm.stats.vm.v_inactive_count" (by simp [sysctl_keys])
    obtain ⟨v6, e6, n6⟩ := hall "vm.stats.vm.v_cache_count" (by simp [sysctl_keys])
    rw [absolute_samples_sysctlbyname] at hs
    split_ifs at hs
    · simp only [sysctl_read, sysctl_keys, List.map, sysctl_scale, e0, e2, e3, e4, e5, e6,
        List.getD_cons_succ, List.getD_cons_zero, isnan, gauge_of_int, gauge_mul,
        Option.isNone_some, Bool.not_false, if_true,
        List.mem_cons, List.mem_singleton, List.not_mem_nil, or_false] at hs
      have c0 : (0 : ℚ) ≤ (v0 : ℚ) := by exact_mod_cast n0
      rcases hs with rfl | rfl | rfl | rfl | rfl
      · exact ⟨_, rfl, mul_nonneg (by exact_mod_cast n2) c0⟩
      · exact ⟨_, rfl, mul_nonneg (by exact_mod_cast n3) c0⟩
      · exact ⟨_, rfl, mul_nonneg (by exact_mod_cast n4) c0⟩
      · exact ⟨_, rfl, mul_nonneg (by exact_mod_cast n5) c0⟩
      · exact ⟨_, rfl, mul_nonneg (by exact_mod_cast n6) c0⟩
    · simp at hs
  · intro cfg ios hu hc hf s hs
    rw [absolute_samples_statgrab] at hs
    split_ifs at hs
    · simp only [List.mem_cons, List.mem_singleton, List.not_mem_nil, or_false] at hs
      rcases hs with rfl | rfl | rfl
      · exact gauge_nonneg_of_int hu
      · exact gauge_nonneg_of_int hc
      · exact gauge_nonneg_of_int hf
    · simp at hs
  · intro cfg pagesize pm s hs
    rw [absolute_samples_perfstat] at hs
    have hn : ∀ x : Nat, 0 ≤ perfstat_scale x pagesize := by
      intro x
      unfold perfstat_scale wrapU64
      exact Int.emod_nonneg _ (by norm_num)
    split_ifs at hs
    · simp only [List.mem_cons, List.mem_singleton, List.not_mem_nil, or_false] at hs
      rcases hs with rfl | rfl | rfl | rfl | rfl <;> exact gauge_nonneg_of_int (hn _)
    · simp at hs

/-- Instance of C5 (amended) at the meminfo lines of the spec and at kstat readings with
`pagestotal ≤ physmem`. -/
theorem absolute_values_nonneg_witness :
    (∀ s ∈ absolute_samples (memory_read_linux Config.default
        (some ["MemTotal: 1000000 kB\n".toList, "MemFree: 200000 kB\n".toList,
          "Buffers: 50000 kB\n".toList, "Cached: 150000 kB\n".toList])).2,
        gauge_nonneg s.value)
    ∧ (∀ s ∈ absolute_samples
        (memory_read_kstat Config.default 4096 (some ⟨1000, 100, 950, 50, 1200, 80⟩)).2,
        gauge_nonneg s.value) :=
  ⟨absolute_values_nonneg.1 Config.default _ (by decide) (by decide) (by decide) (by decide),
   ((absolute_values_nonneg.2.1 Config.default 4096 ⟨1000, 100, 950, 50, 1200, 80⟩
      (by decide) (by decide) (by decide) (by decide) (by decide) (by decide) (by decide)
      (by decide) (by decide)).2.2 (by decide))⟩

theorem percent_of_int (a b : Int) (hb : b ≠ 0) :
    percent_of (gauge_of_int a) (gauge_of_int b) = some ((a : ℚ) / (b : ℚ) * 100) := by
  have hb2 : (b : ℚ) ≠ 0 := by exact_mod_cast hb
  simp [percent_of, gauge_of_int, gauge_div, gauge_mul, hb2]

theorem percent_of_zero (a : Int) :
    percent_of (gauge_of_int a) (gauge_of_int 0) = none := by
  simp [percent_of, gauge_of_int, gauge_div, gauge_mul]

/-- Failure of C8 as stated: in the partition-performance-stats variant, with
`real_total = 100`, `real_inuse = 60`, `real_free = 40`, `numperm = 10`,
`real_system = 20`, `real_process = 30`, the five percentages are 60, 40, 10, 20 and
30; their sum 160 is not within 0.5 of 100. -/
theorem perfstat_percentages_exceed_100 :
    percent_values
        (memory_read_perfstat ⟨true, true⟩ 4096 (some ⟨100, 60, 40, 10, 20, 30⟩)).2
      = [some 60, some 40, some 10, some 20, some 30]
    ∧ ¬ |(([60, 40, 10, 20, 30] : List ℚ).sum - 100)| ≤ 1 / 2 := by
  constructor
  · unfold percent_values
    rw [percent_samples_perfstat]
    simp only [if_true, List.map]
    rw [percent_of_int _ _ (by decide), percent_of_int _ _ (by decide),
      percent_of_int _ _ (by decide), percent_of_int _ _ (by decide),
      percent_of_int _ _ (by decide)]
    norm_num
  · norm_num [abs_le]

/-- C8, amended. With `ValuesPercentage` enabled and a strictly positive denominator,
the percentages of one tick, read as exact rationals, sum to exactly 100 in the
virtual-file variant (over `MemTotal`) and in the kernel-statistics-table variant (over
the sum of the five categories); in the partition-performance-stats variant they sum to
`100 * (real_inuse + real_free + numperm + real_system + real_process) / real_total`,
which is 100 when the five counters add up to `real_total`. -/
theorem percent_sum :
    (∀ (cfg : Config) (buffers : List (List Char)),
      cfg.values_percentage = true →
      0 ≤ (read_meminfo buffers).mem_free ∧ (read_meminfo buffers).mem_free ≤ 2 ^ 61 →
      0 ≤ (read_meminfo buffers).mem_buffered ∧ (read_meminfo buffers).mem_buffered ≤ 2 ^ 61 →
      0 ≤ (read_meminfo buffers).mem_cached ∧ (read_meminfo buffers).mem_cached ≤ 2 ^ 61 →
      0 < (read_meminfo buffers).mem_total →
      (read_meminfo buffers).mem_free + (read_meminfo buffers).mem_buffered
        + (read_meminfo buffers).mem_cached ≤ (read_meminfo buffers).mem_total →
      ∃ vs : List ℚ,
        percent_values (memory_read_linux cfg (some buffers)).2 = vs.map some
        ∧ vs.length = 4 ∧ vs.sum = 100)
    ∧ (∀ (cfg : Config) (pagesize : Int) (k : kstat_values),
      cfg.values_percentage = true →
      within (2 ^ 20) pagesize → kstat_in_range k →
      0 ≤ k.pagestotal → 0 ≤ k.pagesfree → 0 ≤ k.pageslocked →
      (∀ p, kstat_reconcile k = some p → 0 < kstat_total (kstat_scale p pagesize)) →
      ∃ vs : List ℚ,
        percent_values (memory_read_kstat cfg pagesize (some k)).2 = vs.map some
        ∧ vs.length = 5 ∧ vs.sum = 100)
    ∧ (∀ (cfg : Config) (pagesize : Int) (pm : perfstat_memory_total_t),
      cfg.values_percentage = true →
      0 < pm.real_total →
      ∃ vs : List ℚ,
        percent_values (memory_read_perfstat cfg pagesize (some pm)).2 = vs.map some
        ∧ vs.length = 5
        ∧ vs.sum = 100 * ((pm.real_inuse + pm.real_free + pm.numperm + pm.real_system
            + pm.real_process : Nat) : ℚ) / (pm.real_total : ℚ)
        ∧ (pm.real_inuse + pm.real_free + pm.numperm + pm.real_system + pm.real_process
            = pm.real_total → vs.sum = 100)) := by
  have e61 : ((2 : Int) ^ 61) = 2305843009213693952 := by norm_num
  have e63 : ((2 : Int) ^ 63) = 9223372036854775808 := by norm_num
  refine ⟨?_, ?_, ?_⟩
  · intro cfg buffers hv hf hb hc hpos hle
    rw [e61] at hf hb hc
    have hT := (read_meminfo_fits buffers).1
    unfold fits64 at hT
    rw [e63] at hT
    have w1 : wrap64 ((read_meminfo buffers).mem_free + (read_meminfo buffers).mem_buffered)
        = (read_meminfo buffers).mem_free + (read_meminfo buffers).mem_buffered :=
      wrap64_eq_self (by rw [e63]; omega) (by rw [e63]; omega)
    have w2 : wrap64 ((read_meminfo buffers).mem_free + (read_meminfo buffers).mem_buffered
        + (read_meminfo buffers).mem_cached)
        = (read_meminfo buffers).mem_free + (read_meminfo buffers).mem_buffered
          + (read_meminfo buffers).mem_cached :=
      wrap64_eq_self (by rw [e63]; omega) (by rw [e63]; omega)
    have w3 : wrap64 ((read_meminfo buffers).mem_total
        - ((read_meminfo buffers).mem_free + (read_meminfo buffers).mem_buffered
          + (read_meminfo buffers).mem_cached))
        = (read_meminfo buffers).mem_total
        - ((read_meminfo buffers).mem_free + (read_meminfo buffers).mem_buffered
          + (read_meminfo buffers).mem_cached) :=
      wrap64_eq_self (by rw [e63]; omega) (by rw [e63]; omega)
    have hne : (read_meminfo buffers).mem_total ≠ 0 := ne_of_gt hpos
    have hneq : ((read_meminfo buffers).mem_total : ℚ) ≠ 0 := by exact_mod_cast hne
    unfold percent_values
    rw [percent_samples_linux, w1, w2, w3, if_pos ⟨hle, hv⟩]
    simp only [List.map, percent_of_int _ _ hne]
    refine ⟨[_, _, _, _], rfl, rfl, ?_⟩
    simp only [List.sum_cons, List.sum_nil]
    push_cast
    field_simp
    ring
  · intro cfg pagesize k hv hps hr h0 h1 h2 hpos
    have hex := kstat_reconcile_exact k hr h0 h1 h2
    obtain ⟨hsc, htot⟩ := kstat_scale_exact (kstat_exact k) pagesize hps
      (kstat_exact_within k hr h0 h1 h2)
    have hp := hpos _ hex
    have hne : kstat_total (kstat_scale (kstat_exact k) pagesize) ≠ 0 := ne_of_gt hp
    have hneq : ((kstat_total (kstat_scale (kstat_exact k) pagesize) : Int) : ℚ) ≠ 0 := by
      exact_mod_cast hne
    unfold percent_values
    rw [percent_samples_kstat cfg pagesize k _ hex, if_pos hv]
    simp only [List.map, percent_of_int _ _ hne]
    refine ⟨[_, _, _, _, _], rfl, rfl, ?_⟩
    simp only [List.sum_cons, List.sum_nil]
    rw [htot] at hneq ⊢
    rw [hsc]
    push_cast at hneq ⊢
    field_simp
    ring
  · intro cfg pagesize pm hv hpos
    have hne : ((pm.real_total : Nat) : Int) ≠ 0 := by exact_mod_cast (ne_of_gt hpos)
    have hneq : (pm.real_total : ℚ) ≠ 0 := by exact_mod_cast (ne_of_gt hpos)
    unfold percent_values
    rw [percent_samples_perfstat, if_pos hv]
    simp only [List.map, percent_of_int _ _ hne]
    refine ⟨[_, _, _, _, _], rfl, rfl, ?_, ?_⟩
    · simp only [List.sum_cons, List.sum_nil]
      push_cast
      field_simp
      ring
    · intro hsum
      simp only [List.sum_cons, List.sum_nil]
      rw [← hsum] at hneq ⊢
      push_cast at hneq ⊢
      field_simp
      ring

/-- Instances of C8 (amended): the meminfo lines of the spec, the kstat readings
`1000, 100, 950, 50, 1200, 80` with a page size of `4096`, and perfstat counters that
add up to `real_total`. -/
theorem percent_sum_witness :
    (∃ vs : List ℚ,
      percent_values (memory_read_linux ⟨true, true⟩
        (some ["MemTotal: 1000000 kB\n".toList, "MemFree: 200000 kB\n".toList,
          "Buffers: 50000 kB\n".toList, "Cached: 150000 kB\n".toList])).2 = vs.map some
      ∧ vs.length = 4 ∧ vs.sum = 100)
    ∧ (∃ vs : List ℚ,
      percent_values
        (memory_read_kstat ⟨true, true⟩ 4096 (some ⟨1000, 100, 950, 50, 1200, 80⟩)).2
        = vs.map some
      ∧ vs.length = 5 ∧ vs.sum = 100)
    ∧ (∃ vs : List ℚ,
      percent_values
        (memory_read_perfstat ⟨true, true⟩ 4096 (some ⟨100, 60, 40, 0, 0, 0⟩)).2
        = vs.map some
      ∧ vs.length = 5 ∧ vs.sum = 100) := by
  refine ⟨percent_sum.1 ⟨true, true⟩ _ rfl (by decide) (by decide) (by decide) (by decide)
      (by decide),
    percent_sum.2.1 ⟨true, true⟩ 4096 ⟨1000, 100, 950, 50, 1200, 80⟩ rfl (by decide)
      (by decide) (by decide) (by decide) (by decide) ?_, ?_⟩
  · intro p hp
    have h : kstat_reconcile ⟨1000, 100, 950, 50, 1200, 80⟩ = some ⟨0, 80, 900, 50, 200⟩ := by
      decide
    rw [h] at hp
    injection hp with hp
    subst hp
    decide
  · obtain ⟨vs, h1, h2, _, h4⟩ := percent_sum.2.2 ⟨true, true⟩ 4096 ⟨100, 60, 40, 0, 0, 0⟩ rfl
      (by decide)
    exact ⟨vs, h1, h2, h4 (by decide)⟩

/-- Failure of C4 as stated: in the virtual-file variant with `ValuesPercentage`
enabled and `MemTotal`, `MemFree`, `Buffers`, `Cached` all `0`, the denominator
`mem_total` is `0` and the tick still dispatches four samples named `percent_...`. -/
theorem linux_percent_emitted_at_zero_total :
    (read_meminfo ["MemTotal: 0 kB\n".toList, "MemFree: 0 kB\n".toList,
        "Buffers: 0 kB\n".toList, "Cached: 0 kB\n".toList]).mem_total = 0
    ∧ (memory_read_linux ⟨true, true⟩
        (some ["MemTotal: 0 kB\n".toList, "MemFree: 0 kB\n".toList,
          "Buffers: 0 kB\n".toList, "Cached: 0 kB\n".toList])).2.filter is_percent
      = [⟨"percent_used", none⟩, ⟨"percent_buffered", none⟩, ⟨"percent_cached", none⟩,
          ⟨"percent_free", none⟩] := by
  constructor
  · decide
  · rw [percent_samples_linux]
    have h : read_meminfo ["MemTotal: 0 kB\n".toList, "MemFree: 0 kB\n".toList,
        "Buffers: 0 kB\n".toList, "Cached: 0 kB\n".toList] = ⟨0, 0, 0, 0⟩ := by decide
    rw [h]
    simp only [percent_of_zero]
    decide

theorem percent_of_zero_total (v : gauge_t) : percent_of v (some 0) = none := by
  cases v <;> simp [percent_of, gauge_div, gauge_mul]

theorem percent_of_nan_total (v : gauge_t) : percent_of v none = none := by
  cases v <;> simp [percent_of, gauge_div, gauge_mul]

/-- C4, amended. With `ValuesPercentage` enabled the percentage pass is not guarded by
its denominator: the virtual-file variant dispatches its four `percent_` samples
whenever `mem_total ≥ mem_free + mem_buffered + mem_cached` (and nothing at all
otherwise), the kernel-statistics-table variant dispatches its five whenever the tick is
not aborted, the named-sysctl variant always, the partition-performance-stats variant
whenever the query succeeds; when the denominator is 0 every one of these samples
carries a value that is not a finite number. -/
theorem percent_pass_not_guarded :
    (∀ (cfg : Config) (buffers : List (List Char)),
      cfg.values_percentage = true →
      ((read_meminfo buffers).mem_total ≥
          wrap64 (wrap64 ((read_meminfo buffers).mem_free + (read_meminfo buffers).mem_buffered)
            + (read_meminfo buffers).mem_cached) →
        names ((memory_read_linux cfg (some buffers)).2.filter is_percent)
          = ["percent_used", "percent_buffered", "percent_cached", "percent_free"]
        ∧ ((read_meminfo buffers).mem_total = 0 →
            percent_values (memory_read_linux cfg (some buffers)).2
              = [none, none, none, none]))
      ∧ (¬ (read_meminfo buffers).mem_total ≥
          wrap64 (wrap64 ((read_meminfo buffers).mem_free + (read_meminfo buffers).mem_buffered)
            + (read_meminfo buffers).mem_cached) →
        (memory_read_linux cfg (some buffers)).2 = []))
    ∧ (∀ (cfg : Config) (pagesize : Int) (k : kstat_values) (p : kstat_pages),
      cfg.values_percentage = true →
      kstat_reconcile k = some p →
      names ((memory_read_kstat cfg pagesize (some k)).2.filter is_percent)
        = ["percent_used", "percent_free", "percent_locked", "percent_kernel",
            "percent_unusable"]
      ∧ (kstat_total (kstat_scale p pagesize) = 0 →
          percent_values (memory_read_kstat cfg pagesize (some k)).2
            = [none, none, none, none, none]))
    ∧ (∀ (cfg : Config) (sysctlbyname : String → Option Int),
      cfg.values_percentage = true →
      names ((memory_read_sysctlbyname cfg sysctlbyname).2.filter is_percent)
        = ["percent_free", "percent_wired", "percent_active", "percent_inactive",
            "percent_cache"]
      ∧ (sysctl_total (sysctl_scale (sysctl_read sysctlbyname)) = some 0 →
          percent_values (memory_read_sysctlbyname cfg sysctlbyname).2
            = [none, none, none, none, none]))
    ∧ (∀ (cfg : Config) (pagesize : Int) (pm : perfstat_memory_total_t),
      cfg.values_percentage = true →
      names ((memory_read_perfstat cfg pagesize (some pm)).2.filter is_percent)
        = ["percent_used", "percent_free", "percent_cached", "percent_system",
            "percent_user"]
      ∧ (pm.real_total = 0 →
          percent_values (memory_read_perfstat cfg pagesize (some pm)).2
            = [none, none, none, none, none])) := by
  refine ⟨?_, ?_, ?_, ?_⟩
  · intro cfg buffers hv
    refine ⟨?_, ?_⟩
    · intro hge
      unfold percent_values
      rw [percent_samples_linux, if_pos ⟨hge, hv⟩]
      refine ⟨rfl, ?_⟩
      intro h0
      rw [h0]
      simp only [List.map, gauge_of_int, Int.cast_zero, percent_of_zero_total]
    · intro hlt
      unfold memory_read_linux
      simp only [if_neg hlt]
  · intro cfg pagesize k p hv hp
    unfold percent_values
    rw [percent_samples_kstat cfg pagesize k p hp, if_pos hv]
    refine ⟨rfl, ?_⟩
    intro h0
    rw [h0]
    simp only [List.map, gauge_of_int, Int.cast_zero, percent_of_zero_total]
  · intro cfg f hv
    unfold percent_values
    rw [percent_samples_sysctlbyname, if_pos hv]
    refine ⟨rfl, ?_⟩
    intro h0
    rw [h0]
    simp only [List.map, percent_of_zero_total]
  · intro cfg pagesize pm hv
    unfold percent_values
    rw [percent_samples_perfstat, if_pos hv]
    refine ⟨rfl, ?_⟩
    intro h0
    rw [h0]
    simp only [List.map, gauge_of_int, Nat.cast_zero, Int.cast_zero, percent_of_zero_total]

/-- Instances of C4 (amended): the all-zero meminfo lines and all-zero kstat readings,
both with a zero denominator. -/
theorem percent_pass_not_guarded_witness :
    (names ((memory_read_linux ⟨true, true⟩
        (some ["MemTotal: 0 kB\n".toList, "MemFree: 0 kB\n".toList,
          "Buffers: 0 kB\n".toList, "Cached: 0 kB\n".toList])).2.filter is_percent)
        = ["percent_used", "percent_buffered", "percent_cached", "percent_free"]
      ∧ percent_values (memory_read_linux ⟨true, true⟩
        (some ["MemTotal: 0 kB\n".toList, "MemFree: 0 kB\n".toList,
          "Buffers: 0 kB\n".toList, "Cached: 0 kB\n".toList])).2
        = [none, none, none, none])
    ∧ (names ((memory_read_kstat ⟨true, true⟩ 4096 (some ⟨0, 0, 0, 0, 0, 0⟩)).2.filter
          is_percent)
        = ["percent_used", "percent_free", "percent_locked", "percent_kernel",
            "percent_unusable"]
      ∧ percent_values (memory_read_kstat ⟨true, true⟩ 4096 (some ⟨0, 0, 0, 0, 0, 0⟩)).2
        = [none, none, none, none, none]) := by
  have h1 := (percent_pass_not_guarded.1 ⟨true, true⟩
    ["MemTotal: 0 kB\n".toList, "MemFree: 0 kB\n".toList,
      "Buffers: 0 kB\n".toList, "Cached: 0 kB\n".toList] rfl).1 (by decide)
  have h2 := percent_pass_not_guarded.2.1 ⟨true, true⟩ 4096 ⟨0, 0, 0, 0, 0, 0⟩
    ⟨0, 0, 0, 0, 0⟩ rfl (by decide)
  exact ⟨⟨h1.1, h1.2 (by decide)⟩, ⟨h2.1, h2.2 (by decide)⟩⟩

theorem mem_percent_of_no_absolute {l : List value_list_t} {s : value_list_t}
    (h : absolute_samples l = []) (hs : s ∈ l) : s ∈ l.filter is_percent := by
  rw [List.mem_filter]
  refine ⟨hs, ?_⟩
  by_contra hn
  have hm : s ∈ absolute_samples l := by
    unfold absolute_samples
    rw [List.mem_filter]
    exact ⟨hs, by simpa using hn⟩
  rw [h] at hm
  exact absurd hm (List.not_mem_nil s)

theorem filter_percent_eq_self {l : List value_list_t} (h : absolute_samples l = []) :
    l.filter is_percent = l :=
  List.filter_eq_self.mpr fun _ hs => (List.mem_filter.mp (mem_percent_of_no_absolute h hs)).2

/-- C6. `memory_config` returns `-1` and leaves both toggles unchanged for every key
that is not, case ignored, `ValuesAbsolute` or `ValuesPercentage`; for `ValuesAbsolute`
it returns `0` and sets only `values_absolute`, for `ValuesPercentage` it returns `0`
and sets only `values_percentage`, to the truth value of the string. From the defaults,
after `ValuesAbsolute=false` and `ValuesPercentage=true` the toggles are off/on, and
every tick of every embedded variant dispatches no absolute sample and only samples
named `percent_` followed by one of its absolute category names; every tick that reaches
the emission stage dispatches exactly the `percent_` samples of its variant, one per
absolute category, in order. -/
theorem config_gate (is_true : String → Bool) (cfg : Config) (key value : String) :
    (strcasecmp_eq key.toList "ValuesAbsolute".toList = false →
      strcasecmp_eq key.toList "ValuesPercentage".toList = false →
      memory_config is_true cfg key value = (-1, cfg))
    ∧ (strcasecmp_eq key.toList "ValuesAbsolute".toList = true →
      memory_config is_true cfg key value
        = (0, { values_absolute := is_true value,
                values_percentage := cfg.values_percentage }))
    ∧ (strcasecmp_eq key.toList "ValuesPercentage".toList = true →
      memory_config is_true cfg key value
        = (0, { values_absolute := cfg.values_absolute,
                values_percentage := is_true value }))
    ∧ (is_true "false" = false → is_true "true" = true →
      (memory_config is_true
        (memory_config is_true Config.default "ValuesAbsolute" "false").2
        "ValuesPercentage" "true").2
        = { values_absolute := false, values_percentage := true })
    ∧ (∀ file, absolute_samples (memory_read_linux ⟨false, true⟩ file).2 = []
        ∧ ∀ s ∈ (memory_read_linux ⟨false, true⟩ file).2, s.type_instance ∈
          ["used", "buffered", "cached", "free"].map fun n => "percent_" ++ n)
    ∧ (∀ pagesize ksp, absolute_samples (memory_read_kstat ⟨false, true⟩ pagesize ksp).2 = []
        ∧ ∀ s ∈ (memory_read_kstat ⟨false, true⟩ pagesize ksp).2, s.type_instance ∈
          ["used", "free", "locked", "kernel", "unusable"].map fun n => "percent_" ++ n)
    ∧ (∀ sysctlbyname,
        absolute_samples (memory_read_sysctlbyname ⟨false, true⟩ sysctlbyname).2 = []
        ∧ ∀ s ∈ (memory_read_sysctlbyname ⟨false, true⟩ sysctlbyname).2, s.type_instance ∈
          ["free", "wired", "active", "inactive", "cache"].map fun n => "percent_" ++ n)
    ∧ (∀ ios, absolute_samples (memory_read_statgrab ⟨false, true⟩ ios).2 = []
        ∧ ∀ s ∈ (memory_read_statgrab ⟨false, true⟩ ios).2, s.type_instance ∈
          ["used", "cached", "free"].map fun n => "percent_" ++ n)
    ∧ (∀ pagesize pmemory,
        absolute_samples (memory_read_perfstat ⟨false, true⟩ pagesize pmemory).2 = []
        ∧ ∀ s ∈ (memory_read_perfstat ⟨false, true⟩ pagesize pmemory).2, s.type_instance ∈
          ["used", "free", "cached", "system", "user"].map fun n => "percent_" ++ n)
    ∧ (∀ buffers : List (List Char),
        (read_meminfo buffers).mem_total ≥
          wrap64 (wrap64 ((read_meminfo buffers).mem_free + (read_meminfo buffers).mem_buffered)
            + (read_meminfo buffers).mem_cached) →
        names (memory_read_linux ⟨false, true⟩ (some buffers)).2
          = ["percent_used", "percent_buffered", "percent_cached", "percent_free"])
    ∧ (∀ pagesize ksp, (memory_read_kstat ⟨false, true⟩ pagesize ksp).1 = 0 →
        names (memory_read_kstat ⟨false, true⟩ pagesize ksp).2
          = ["percent_used", "percent_free", "percent_locked", "percent_kernel",
              "percent_unusable"])
    ∧ (∀ sysctlbyname,
        names (memory_read_sysctlbyname ⟨false, true⟩ sysctlbyname).2
          = ["percent_free", "percent_wired", "percent_active", "percent_inactive",
              "percent_cache"])
    ∧ (∀ ios : sg_mem_stats,
        names (memory_read_statgrab ⟨false, true⟩ (some ios)).2
          = ["percent_used", "percent_cached", "percent_free"])
    ∧ (∀ pagesize pmemory, (memory_read_perfstat ⟨false, true⟩ pagesize pmemory).1 = 0 →
        names (memory_read_perfstat ⟨false, true⟩ pagesize pmemory).2
          = ["percent_used", "percent_free", "percent_cached", "percent_system",
              "percent_user"]) := by
  refine ⟨?_, ?_, ?_, ?_, ?_, ?_, ?_, ?_, ?_, ?_, ?_, ?_, ?_, ?_⟩
  · intro h1 h2
    unfold memory_config
    rw [h1, h2]
    rfl
  · intro h1
    unfold memory_config
    rw [h1]
    rfl
  · intro h2
    have h1 : strcasecmp_eq key.toList "ValuesAbsolute".toList = false := by
      unfold strcasecmp_eq at h2 ⊢
      rw [decide_eq_true_eq] at h2
      rw [decide_eq_false_iff_not, h2]
      decide
    unfold memory_config
    rw [h1, h2]
    rfl
  · intro hfalse htrue
    have a : strcasecmp_eq "ValuesAbsolute".toList "ValuesAbsolute".toList = true := by decide
    have b : strcasecmp_eq "ValuesPercentage".toList "ValuesAbsolute".toList = false := by
      decide
    have c : strcasecmp_eq "ValuesPercentage".toList "ValuesPercentage".toList = true := by
      decide
    unfold memory_config
    rw [a]
    simp only [if_true]
    rw [b, c, hfalse, htrue]
    rfl
  · intro file
    cases file with
    | none => simp [memory_read_linux, absolute_samples]
    | some buffers =>
      have ha : absolute_samples (memory_read_linux ⟨false, true⟩ (some buffers)).2 = [] := by
        rw [absolute_samples_linux]; simp
      refine ⟨ha, ?_⟩
      intro s hs
      have hs2 := mem_percent_of_no_absolute ha hs
      rw [percent_samples_linux] at hs2
      split_ifs at hs2
      · simp only [List.mem_cons, List.mem_singleton, List.not_mem_nil, or_false] at hs2
        rcases hs2 with rfl | rfl | rfl | rfl <;> (dsimp only; decide)
      · simp at hs2
  · intro pagesize ksp
    cases ksp with
    | none => simp [memory_read_kstat, absolute_samples]
    | some k =>
      cases hp : kstat_reconcile k with
      | none => simp [memory_read_kstat, hp, absolute_samples]
      | some p =>
        have ha : absolute_samples (memory_read_kstat ⟨false, true⟩ pagesize (some k)).2
            = [] := by
          rw [absolute_samples_kstat _ _ _ p hp]; simp
        refine ⟨ha, ?_⟩
        intro s hs
        have hs2 := mem_percent_of_no_absolute ha hs
        rw [percent_samples_kstat _ _ _ p hp] at hs2
        simp only [if_true, List.mem_cons, List.mem_singleton, List.not_mem_nil,
          or_false] at hs2
        rcases hs2 with rfl | rfl | rfl | rfl | rfl <;> (dsimp only; decide)
  · intro f
    have ha : absolute_samples (memory_read_sysctlbyname ⟨false, true⟩ f).2 = [] := by
      rw [absolute_samples_sysctlbyname]; simp
    refine ⟨ha, ?_⟩
    intro s hs
    have hs2 := mem_percent_of_no_absolute ha hs
    rw [percent_samples_sysctlbyname] at hs2
    simp only [if_true, List.mem_cons, List.mem_singleton, List.not_mem_nil,
      or_false] at hs2
    rcases hs2 with rfl | rfl | rfl | rfl | rfl <;> (dsimp only; decide)
  · intro ios
    cases ios with
    | none => simp [memory_read_statgrab, absolute_samples]
    | some ios =>
      have ha : absolute_samples (memory_read_statgrab ⟨false, true⟩ (some ios)).2 = [] := by
        rw [absolute_samples_statgrab]; simp
      refine ⟨ha, ?_⟩
      intro s hs
      have hs2 := mem_percent_of_no_absolute ha hs
      rw [percent_samples_statgrab] at hs2
      simp only [if_true, List.mem_cons, List.mem_singleton, List.not_mem_nil,
        or_false] at hs2
      rcases hs2 with rfl | rfl | rfl <;> (dsimp only; decide)
  · intro pagesize pm
    cases pm with
    | none => simp [memory_read_perfstat, absolute_samples]
    | some pm =>
      have ha : absolute_samples (memory_read_perfstat ⟨false, true⟩ pagesize (some pm)).2
          = [] := by
        rw [absolute_samples_perfstat]; simp
      refine ⟨ha, ?_⟩
      intro s hs
      have hs2 := mem_percent_of_no_absolute ha hs
      rw [percent_samples_perfstat] at hs2
      simp only [if_true, List.mem_cons, List.mem_singleton, List.not_mem_nil,
        or_false] at hs2
      rcases hs2 with rfl | rfl | rfl | rfl | rfl <;> (dsimp only; decide)
  · intro buffers hge
    have ha : absolute_samples (memory_read_linux ⟨false, true⟩ (some buffers)).2 = [] := by
      rw [absolute_samples_linux]; simp
    rw [← filter_percent_eq_self ha, percent_samples_linux, if_pos ⟨hge, rfl⟩]
    rfl
  · intro pagesize ksp hret
    cases ksp with
    | none => exact absurd hret (by simp [memory_read_kstat])
    | some k =>
      cases hp : kstat_reconcile k with
      | none => exact absurd hret (by simp [memory_read_kstat, hp])
      | some p =>
        have ha : absolute_samples (memory_read_kstat ⟨false, true⟩ pagesize (some k)).2
            = [] := by
          rw [absolute_samples_kstat _ _ _ p hp]; simp
        rw [← filter_percent_eq_self ha, percent_samples_kstat _ _ _ p hp, if_pos rfl]
        rfl
  · intro f
    have ha : absolute_samples (memory_read_sysctlbyname ⟨false, true⟩ f).2 = [] := by
      rw [absolute_samples_sysctlbyname]; simp
    rw [← filter_percent_eq_self ha, percent_samples_sysctlbyname, if_pos rfl]
    rfl
  · intro ios
    have ha : absolute_samples (memory_read_statgrab ⟨false, true⟩ (some ios)).2 = [] := by
      rw [absolute_samples_statgrab]; simp
    rw [← filter_percent_eq_self ha, percent_samples_statgrab, if_pos rfl]
    rfl
  · intro pagesize pm hret
    cases pm with
    | none => exact absurd hret (by simp [memory_read_perfstat])
    | some pm =>
      have ha : absolute_samples (memory_read_perfstat ⟨false, true⟩ pagesize (some pm)).2
          = [] := by
        rw [absolute_samples_perfstat]; simp
      rw [← filter_percent_eq_self ha, percent_samples_perfstat, if_pos rfl]
      rfl

/-- Instances of C6 with the usual reading of `IS_TRUE`: the key `Interval` is
rejected and changes nothing, `VALUESPERCENTAGE=yes` is accepted and switches only the
percentage toggle, the sequence `ValuesAbsolute=false`, `ValuesPercentage=true` leaves
absolute off and percentage on, and with the toggles so configured the tick on the
meminfo lines of the spec and the tick on the kstat readings `1000, 100, 950, 50, 1200,
80` dispatch their `percent_` samples and nothing else. -/
theorem config_gate_witness :
    memory_config IS_TRUE Config.default "Interval" "10" = (-1, Config.default)
    ∧ memory_config IS_TRUE Config.default "VALUESPERCENTAGE" "yes"
        = (0, { values_absolute := true, values_percentage := true })
    ∧ (memory_config IS_TRUE
        (memory_config IS_TRUE Config.default "ValuesAbsolute" "false").2
        "ValuesPercentage" "true").2
        = { values_absolute := false, values_percentage := true }
    ∧ names (memory_read_linux
        (memory_config IS_TRUE
          (memory_config IS_TRUE Config.default "ValuesAbsolute" "false").2
          "ValuesPercentage" "true").2
        (some ["MemTotal: 1000000 kB\n".toList, "MemFree: 200000 kB\n".toList,
          "Buffers: 50000 kB\n".toList, "Cached: 150000 kB\n".toList])).2
        = ["percent_used", "percent_buffered", "percent_cached", "percent_free"]
    ∧ names (memory_read_kstat
        (memory_config IS_TRUE
          (memory_config IS_TRUE Config.default "ValuesAbsolute" "false").2
          "ValuesPercentage" "true").2
        4096 (some ⟨1000, 100, 950, 50, 1200, 80⟩)).2
        = ["percent_used", "percent_free", "percent_locked", "percent_kernel",
            "percent_unusable"] := by
  have hc := (config_gate IS_TRUE Config.default "Interval" "10").2.2.2.1
    (by decide) (by decide)
  refine ⟨(config_gate IS_TRUE Config.default "Interval" "10").1 (by decide) (by decide),
    (config_gate IS_TRUE Config.default "VALUESPERCENTAGE" "yes").2.2.1 (by decide),
    hc, ?_, ?_⟩
  · rw [hc]
    exact (config_gate IS_TRUE Config.default "Interval" "10").2.2.2.2.2.2.2.2.2.1 _
      (by decide)
  · rw [hc]
    exact (config_gate IS_TRUE Config.default "Interval" "10").2.2.2.2.2.2.2.2.2.2.1 4096 _
      (by decide)

/-- Failure of C7 as stated: with a page size of `4096`, every page counter `10` and
`vm.stats.vm.v_free_count` unreadable, the tick still dispatches a sample for each of
the five categories, the one for `free` carrying `NAN`. -/
theorem sysctl_absent_counter_emitted :
    names (memory_read_sysctlbyname Config.default
        (fun key => if key = "vm.stats.vm.v_page_size" then some 4096
          else if key = "vm.stats.vm.v_free_count" then none else some 10)).2
      = ["free", "wired", "active", "inactive", "cache"]
    ∧ emitted (memory_read_sysctlbyname Config.default
        (fun key => if key = "vm.stats.vm.v_page_size" then some 4096
          else if key = "vm.stats.vm.v_free_count" then none else some 10)).2 "free"
      = [none] := by
  constructor <;> decide

/-- Entry `i + 1` of the scaled array in terms of the answers of `sysctlbyname`. -/
theorem sysctl_scaled_entry (f : String → Option Int) :
    ∀ i : Nat, i < 6 →
      (sysctl_scale (sysctl_read f)).getD (i + 1) none =
        match f (sysctl_keys.getD (i + 1) ""), f "vm.stats.vm.v_page_size" with
        | some c, some p => some ((c : ℚ) * (p : ℚ))
        | _, _ => none := by
  intro i hi
  have h : i = 0 ∨ i = 1 ∨ i = 2 ∨ i = 3 ∨ i = 4 ∨ i = 5 := by omega
  rcases h with rfl | rfl | rfl | rfl | rfl | rfl <;>
    simp only [sysctl_read, sysctl_keys, List.map, sysctl_scale, List.getD_cons_succ,
      List.getD_cons_zero] <;>
    cases f "vm.stats.vm.v_page_size" <;>
    cases f "vm.stats.vm.v_page_count" <;>
    cases f "vm.stats.vm.v_free_count" <;>
    cases f "vm.stats.vm.v_wire_count" <;>
    cases f "vm.stats.vm.v_active_count" <;>
    cases f "vm.stats.vm.v_inactive_count" <;>
    cases f "vm.stats.vm.v_cache_count" <;>
    simp [isnan, gauge_mul, gauge_of_int]

theorem emitted_sysctlbyname (cfg : Config) (f : String → Option Int)
    (habs : cfg.values_absolute = true) :
    emitted (memory_read_sysctlbyname cfg f).2 "free"
        = [(sysctl_scale (sysctl_read f)).getD 2 none]
    ∧ emitted (memory_read_sysctlbyname cfg f).2 "wired"
        = [(sysctl_scale (sysctl_read f)).getD 3 none]
    ∧ emitted (memory_read_sysctlbyname cfg f).2 "active"
        = [(sysctl_scale (sysctl_read f)).getD 4 none]
    ∧ emitted (memory_read_sysctlbyname cfg f).2 "inactive"
        = [(sysctl_scale (sysctl_read f)).getD 5 none]
    ∧ emitted (memory_read_sysctlbyname cfg f).2 "cache"
        = [(sysctl_scale (sysctl_read f)).getD 6 none] := by
  unfold memory_read_sysctlbyname
  cases hv : cfg.values_percentage <;>
    simp +decide [emitted, memory_submit, habs]

/-- C7, amended. In the named-sysctl variant the tick always returns success; a counter
that cannot be read is stored as `NAN` (not zero) and left as it is by the scaling pass;
with absolute values enabled all five categories `free`, `wired`, `active`, `inactive`,
`cache` are dispatched on every tick: a category whose counter or whose page size could
not be read is dispatched with the value `NAN` (it is not omitted), a category whose
counter and page size were both read is dispatched as counter times page size. -/
theorem sysctl_absent_counter_is_nan (cfg : Config) (f : String → Option Int) :
    (memory_read_sysctlbyname cfg f).1 = 0
    ∧ (∀ i : Nat, i < 7 → f (sysctl_keys.getD i "") = none →
        (sysctl_read f).getD i (some 0) = none
        ∧ (sysctl_scale (sysctl_read f)).getD i (some 0) = none)
    ∧ (cfg.values_absolute = true →
        names (absolute_samples (memory_read_sysctlbyname cfg f).2)
          = ["free", "wired", "active", "inactive", "cache"]
        ∧ ∀ nk ∈ [("free", "vm.stats.vm.v_free_count"), ("wired", "vm.stats.vm.v_wire_count"),
            ("active", "vm.stats.vm.v_active_count"),
            ("inactive", "vm.stats.vm.v_inactive_count"),
            ("cache", "vm.stats.vm.v_cache_count")],
          ((f nk.2 = none ∨ f "vm.stats.vm.v_page_size" = none) →
            emitted (memory_read_sysctlbyname cfg f).2 nk.1 = [none])
          ∧ (∀ c p : Int, f nk.2 = some c → f "vm.stats.vm.v_page_size" = some p →
            emitted (memory_read_sysctlbyname cfg f).2 nk.1 = [some ((c : ℚ) * (p : ℚ))])) := by
  refine ⟨rfl, ?_, ?_⟩
  · intro i hi hnone
    have h : i = 0 ∨ i = 1 ∨ i = 2 ∨ i = 3 ∨ i = 4 ∨ i = 5 ∨ i = 6 := by omega
    rcases h with rfl | rfl | rfl | rfl | rfl | rfl | rfl <;>
      simp only [sysctl_keys, List.getD_cons_succ, List.getD_cons_zero] at hnone <;>
      simp [sysctl_read, sysctl_keys, sysctl_scale, hnone, isnan]
  · intro habs
    refine ⟨by rw [absolute_samples_sysctlbyname, if_pos habs]; rfl, ?_⟩
    obtain ⟨e2, e3, e4, e5, e6⟩ := emitted_sysctlbyname cfg f habs
    have s2 := sysctl_scaled_entry f 1 (by norm_num)
    have s3 := sysctl_scaled_entry f 2 (by norm_num)
    have s4 := sysctl_scaled_entry f 3 (by norm_num)
    have s5 := sysctl_scaled_entry f 4 (by norm_num)
    have s6 := sysctl_scaled_entry f 5 (by norm_num)
    simp only [sysctl_keys, List.getD_cons_succ, List.getD_cons_zero, Nat.reduceAdd]
      at s2 s3 s4 s5 s6
    intro nk hnk
    simp only [List.mem_cons, List.mem_singleton, List.not_mem_nil, or_false] at hnk
    rcases hnk with rfl | rfl | rfl | rfl | rfl
    · simp only []
      rw [e2, s2]
      refine ⟨?_, ?_⟩
      · rintro (h | h)
        · rw [h]
        · rw [h]; cases f "vm.stats.vm.v_free_count" <;> rfl
      · intro c p hc hp; rw [hc, hp]
    · simp only []
      rw [e3, s3]
      refine ⟨?_, ?_⟩
      · rintro (h | h)
        · rw [h]
        · rw [h]; cases f "vm.stats.vm.v_wire_count" <;> rfl
      · intro c p hc hp; rw [hc, hp]
    · simp only []
      rw [e4, s4]
      refine ⟨?_, ?_⟩
      · rintro (h | h)
        · rw [h]
        · rw [h]; cases f "vm.stats.vm.v_active_count" <;> rfl
      · intro c p hc hp; rw [hc, hp]
    · simp only []
      rw [e5, s5]
      refine ⟨?_, ?_⟩
      · rintro (h | h)
        · rw [h]
        · rw [h]; cases f "vm.stats.vm.v_inactive_count" <;> rfl
      · intro c p hc hp; rw [hc, hp]
    · simp only []
      rw [e6, s6]
      refine ⟨?_, ?_⟩
      · rintro (h | h)
        · rw [h]
        · rw [h]; cases f "vm.stats.vm.v_cache_count" <;> rfl
      · intro c p hc hp; rw [hc, hp]

/-- Instances of C7 (amended): the free counter unreadable (dispatched as `NAN`) and
the wired counter read as `10` with a page size of `4096`. -/
theorem sysctl_absent_counter_is_nan_witness :
    emitted (memory_read_sysctlbyname Config.default
        (fun key => if key = "vm.stats.vm.v_page_size" then some 4096
          else if key = "vm.stats.vm.v_free_count" then none else some 10)).2 "free"
      = [none]
    ∧ emitted (memory_read_sysctlbyname Config.default
        (fun key => if key = "vm.stats.vm.v_page_size" then some 4096
          else if key = "vm.stats.vm.v_free_count" then none else some 10)).2 "wired"
      = [some (((10 : Int) : ℚ) * ((4096 : Int) : ℚ))] := by
  have h := (sysctl_absent_counter_is_nan Config.default
    (fun key => if key = "vm.stats.vm.v_page_size" then some 4096
      else if key = "vm.stats.vm.v_free_count" then none else some 10)).2.2 rfl
  exact ⟨(h.2 ("free", "vm.stats.vm.v_free_count") (by simp)).1 (Or.inl (by decide)),
    (h.2 ("wired", "vm.stats.vm.v_wire_count") (by simp)).2 10 4096 (by decide) (by decide)⟩

/-- In the partition-performance-stats variant `memory_init` stores the page size and
returns `0` without any check. -/
theorem memory_init_perfstat_unchecked (getpagesize : Int) :
    memory_init_perfstat getpagesize = (0, getpagesize) := rfl

theorem digitChar_facts :
    ∀ d : Nat, d < 10 →
      isdigit (Nat.digitChar d) = true ∧ (Nat.digitChar d).toNat - 48 = d
        ∧ is_delim (Nat.digitChar d) = false ∧ isspace (Nat.digitChar d) = false
        ∧ Nat.digitChar d ≠ '-' ∧ Nat.digitChar d ≠ '+' := by
  decide

theorem isdigit_facts (c : Char) (h : isdigit c = true) :
    is_delim c = false ∧ isspace c = false ∧ c ≠ '-' ∧ c ≠ '+' := by
  refine ⟨?_, ?_, ?_, ?_⟩
  · unfold is_delim
    rw [decide_eq_false_iff_not]
    rintro (rfl | rfl | rfl | rfl) <;> exact absurd h (by decide)
  · unfold isspace
    rw [decide_eq_false_iff_not]
    rintro (rfl | rfl | rfl | rfl | rfl | rfl) <;> exact absurd h (by decide)
  · rintro rfl
    exact absurd h (by decide)
  · rintro rfl
    exact absurd h (by decide)

theorem toDigitsCore_isdigit (fuel : Nat) :
    ∀ (n : Nat) (ds : List Char), (∀ c ∈ ds, isdigit c = true) →
      ∀ c ∈ Nat.toDigitsCore 10 fuel n ds, isdigit c = true := by
  induction fuel with
  | zero => intro n ds hds; simpa [Nat.toDigitsCore] using hds
  | succ fuel ih =>
    intro n ds hds
    have hd : isdigit (Nat.digitChar (n % 10)) = true :=
      (digitChar_facts (n % 10) (Nat.mod_lt n (by norm_num))).1
    have hds2 : ∀ c ∈ Nat.digitChar (n % 10) :: ds, isdigit c = true := by
      intro c hc
      rcases List.mem_cons.mp hc with rfl | hc
      · exact hd
      · exact hds c hc
    unfold Nat.toDigitsCore
    simp only []
    split_ifs
    · exact hds2
    · exact ih _ _ hds2

theorem toDigitsCore_ne_nil (fuel : Nat) :
    ∀ (n : Nat) (ds : List Char), ds ≠ [] → Nat.toDigitsCore 10 fuel n ds ≠ [] := by
  induction fuel with
  | zero => intro n ds hds; simpa [Nat.toDigitsCore] using hds
  | succ fuel ih =>
    intro n ds _
    unfold Nat.toDigitsCore
    simp only []
    split_ifs
    · exact List.cons_ne_nil _ _
    · exact ih _ _ (List.cons_ne_nil _ _)

theorem toDigits_ne_nil (n : Nat) : Nat.toDigits 10 n ≠ [] := by
  unfold Nat.toDigits Nat.toDigitsCore
  simp only []
  split_ifs
  · exact List.cons_ne_nil _ _
  · exact toDigitsCore_ne_nil _ _ _ (List.cons_ne_nil _ _)

theorem toDigits_isdigit (n : Nat) : ∀ c ∈ Nat.toDigits 10 n, isdigit c = true :=
  toDigitsCore_isdigit _ _ _ (by simp)

theorem toDigitsCore_atoll (fuel : Nat) :
    ∀ (n : Nat) (ds : List Char), n < fuel →
      ∃ k : Nat, ∀ acc : Nat,
        atoll_digits acc (Nat.toDigitsCore 10 fuel n ds) = atoll_digits (acc * 10 ^ k + n) ds := by
  induction fuel with
  | zero => intro n ds h; omega
  | succ fuel ih =>
    intro n ds hn
    obtain ⟨hd1, hd2, _⟩ := digitChar_facts (n % 10) (Nat.mod_lt n (by norm_num))
    unfold Nat.toDigitsCore
    simp only []
    split_ifs with h0
    · refine ⟨1, fun acc => ?_⟩
      have hlt : n < 10 := by omega
      have hmod : n % 10 = n := Nat.mod_eq_of_lt hlt
      rw [atoll_digits, if_pos hd1, hd2, hmod, pow_one]
    · have hlt : n / 10 < fuel := by omega
      obtain ⟨k, hk⟩ := ih (n / 10) (Nat.digitChar (n % 10) :: ds) hlt
      refine ⟨k + 1, fun acc => ?_⟩
      rw [hk acc, atoll_digits, if_pos hd1, hd2]
      congr 1
      rw [pow_succ]
      have := Nat.div_add_mod n 10
      nlinarith [this]

theorem atoll_digits_toDigits (n : Nat) : atoll_digits 0 (Nat.toDigits 10 n) = n := by
  obtain ⟨k, hk⟩ := toDigitsCore_atoll (n + 1) n [] (by omega)
  unfold Nat.toDigits
  rw [hk 0]
  simp [atoll_digits]

theorem strtok_fields_word (w : List Char) :
    ∀ (cur rest : List Char), (∀ c ∈ w, is_delim c = false) →
      strtok_fields cur (w ++ rest) = strtok_fields (cur ++ w) rest := by
  induction w with
  | nil => intro cur rest _; simp
  | cons c cs ih =>
    intro cur rest h
    have hc : is_delim c = false := h c (List.mem_cons_self _ _)
    rw [List.cons_append, strtok_fields, hc]
    simp only [Bool.false_eq_true, if_false]
    rw [ih (cur ++ [c]) rest (fun x hx => h x (List.mem_cons_of_mem _ hx))]
    simp

theorem strtok_fields_blanks (k : Nat) (rest : List Char) :
    strtok_fields [] (List.replicate k ' ' ++ rest) = strtok_fields [] rest := by
  induction k with
  | zero => simp
  | succ k ih =>
    rw [List.replicate_succ, List.cons_append, strtok_fields]
    have : is_delim ' ' = true := by decide
    rw [this]
    simpa using ih

theorem atoll_of_digits (ds : List Char) (hne : ds ≠ [])
    (hall : ∀ c ∈ ds, isdigit c = true) : atoll ds = clamp64 (atoll_digits 0 ds : Int) := by
  cases ds with
  | nil => exact absurd rfl hne
  | cons d rest =>
    obtain ⟨_, hsp, hm, hp⟩ := isdigit_facts d (hall d (List.mem_cons_self _ _))
    unfold atoll
    have hdrop : List.dropWhile isspace (d :: rest) = d :: rest := by
      rw [List.dropWhile_cons, hsp]
      simp
    rw [hdrop]
    split
    · next cs heq => injection heq with h1 _; exact absurd h1 hm
    · next cs heq => injection heq with h1 _; exact absurd h1 hp
    · rfl

/-- The value parsed from a line of `/proc/meminfo` whose key has no blank in it. -/
theorem parse_value_line (key : String) (blanks n : Nat) (hkey : key.toList ≠ [])
    (hk : ∀ c ∈ key.toList, is_delim c = false) (hn : n < 2 ^ 50) :
    parse_value (meminfo_line key blanks n) = some (1024 * (n : Int)) := by
  have hdig : ∀ c ∈ Nat.toDigits 10 n, is_delim c = false :=
    fun c hc => (isdigit_facts c (toDigits_isdigit n c hc)).1
  have hfields : strtok_fields [] (meminfo_line key blanks n)
      = [key.toList, Nat.toDigits 10 n, ['k', 'B']] := by
    unfold meminfo_line
    rw [List.append_assoc, List.append_assoc, strtok_fields_word _ _ _ hk, List.nil_append,
      List.replicate_succ, List.cons_append, strtok_fields]
    have hsp : is_delim ' ' = true := by decide
    rw [hsp]
    simp only [if_true, if_neg hkey]
    rw [strtok_fields_blanks, strtok_fields_word _ _ _ hdig, List.nil_append]
    have htail : strtok_fields (Nat.toDigits 10 n) " kB\n".toList
        = [Nat.toDigits 10 n, ['k', 'B']] := by
      have e : " kB\n".toList = [' ', 'k', 'B', '\n'] := rfl
      rw [e, strtok_fields, hsp]
      simp only [if_true, if_neg (toDigits_ne_nil n)]
      congr 1
    rw [htail]
  have hat : atoll (Nat.toDigits 10 n) = (n : Int) := by
    rw [atoll_of_digits _ (toDigits_ne_nil n) (toDigits_isdigit n), atoll_digits_toDigits]
    unfold clamp64
    have e63 : ((2 : Int) ^ 63) = 9223372036854775808 := by norm_num
    have e50 : (2 : Nat) ^ 50 = 1125899906842624 := by norm_num
    rw [e50] at hn
    rw [e63]
    split_ifs <;> omega
  have hw : wrap64 ((n : Int) * 1024) = 1024 * (n : Int) := by
    have e63 : ((2 : Int) ^ 63) = 9223372036854775808 := by norm_num
    have e50 : (2 : Nat) ^ 50 = 1125899906842624 := by norm_num
    rw [e50] at hn
    rw [wrap64_eq_self (by rw [e63]; omega) (by rw [e63]; omega)]
    ring
  unfold parse_value strsplit
  rw [hfields]
  simp only [List.take]
  rw [hat, hw]

theorem read_buffer_ignored (m : meminfo) (buffer : List Char) (h : meminfo_ignored buffer) :
    read_buffer m buffer = m := by
  obtain ⟨h1, h2, h3, h4⟩ := h
  unfold read_buffer
  rw [h1, h2, h3, h4]
  rfl

theorem read_buffer_total (m : meminfo) (blanks n : Nat) (hn : n < 2 ^ 50) :
    read_buffer m (meminfo_line "MemTotal:" blanks n)
      = { m with mem_total := 1024 * (n : Int) } := by
  have hp := parse_value_line "MemTotal:" blanks n (by decide) (by decide) hn
  have h1 : strncasecmp_eq (meminfo_line "MemTotal:" blanks n) "MemTotal:".toList 9 = true :=
    rfl
  unfold read_buffer
  rw [h1, hp]
  rfl

theorem read_buffer_free (m : meminfo) (blanks n : Nat) (hn : n < 2 ^ 50) :
    read_buffer m (meminfo_line "MemFree:" blanks n)
      = { m with mem_free := 1024 * (n : Int) } := by
  have hp := parse_value_line "MemFree:" blanks n (by decide) (by decide) hn
  have h1 : strncasecmp_eq (meminfo_line "MemFree:" blanks n) "MemTotal:".toList 9 = false :=
    rfl
  have h2 : strncasecmp_eq (meminfo_line "MemFree:" blanks n) "MemFree:".toList 8 = true :=
    rfl
  unfold read_buffer
  rw [h1, h2, hp]
  rfl

theorem read_buffer_buffers (m : meminfo) (blanks n : Nat) (hn : n < 2 ^ 50) :
    read_buffer m (meminfo_line "Buffers:" blanks n)
      = { m with mem_buffered := 1024 * (n : Int) } := by
  have hp := parse_value_line "Buffers:" blanks n (by decide) (by decide) hn
  have h1 : strncasecmp_eq (meminfo_line "Buffers:" blanks n) "MemTotal:".toList 9 = false :=
    rfl
  have h2 : strncasecmp_eq (meminfo_line "Buffers:" blanks n) "MemFree:".toList 8 = false :=
    rfl
  have h3 : strncasecmp_eq (meminfo_line "Buffers:" blanks n) "Buffers:".toList 8 = true :=
    rfl
  unfold read_buffer
  rw [h1, h2, h3, hp]
  rfl

theorem read_buffer_cached (m : meminfo) (blanks n : Nat) (hn : n < 2 ^ 50) :
    read_buffer m (meminfo_line "Cached:" blanks n)
      = { m with mem_cached := 1024 * (n : Int) } := by
  have hp := parse_value_line "Cached:" blanks n (by decide) (by decide) hn
  have h1 : strncasecmp_eq (meminfo_line "Cached:" blanks n) "MemTotal:".toList 9 = false :=
    rfl
  have h2 : strncasecmp_eq (meminfo_line "Cached:" blanks n) "MemFree:".toList 8 = false :=
    rfl
  have h3 : strncasecmp_eq (meminfo_line "Cached:" blanks n) "Buffers:".toList 8 = false :=
    rfl
  have h4 : strncasecmp_eq (meminfo_line "Cached:" blanks n) "Cached:".toList 7 = true :=
    rfl
  unfold read_buffer
  rw [h1, h2, h3, h4, hp]
  rfl

theorem foldl_read_buffer_carries (t f b c : Nat) (ht : t < 2 ^ 50) (hf : f < 2 ^ 50)
    (hb : b < 2 ^ 50) (hc : c < 2 ^ 50) (buffers : List (List Char)) :
    ∀ m : meminfo,
      (∀ buffer ∈ buffers,
        meminfo_ignored buffer
        ∨ (∃ n, buffer = meminfo_line "MemTotal:" n t)
        ∨ (∃ n, buffer = meminfo_line "MemFree:" n f)
        ∨ (∃ n, buffer = meminfo_line "Buffers:" n b)
        ∨ (∃ n, buffer = meminfo_line "Cached:" n c)) →
      ((m.mem_total = 1024 * (t : Int) ∨ ∃ n, meminfo_line "MemTotal:" n t ∈ buffers) →
        (buffers.foldl read_buffer m).mem_total = 1024 * (t : Int))
      ∧ ((m.mem_free = 1024 * (f : Int) ∨ ∃ n, meminfo_line "MemFree:" n f ∈ buffers) →
        (buffers.foldl read_buffer m).mem_free = 1024 * (f : Int))
      ∧ ((m.mem_buffered = 1024 * (b : Int) ∨ ∃ n, meminfo_line "Buffers:" n b ∈ buffers) →
        (buffers.foldl read_buffer m).mem_buffered = 1024 * (b : Int))
      ∧ ((m.mem_cached = 1024 * (c : Int) ∨ ∃ n, meminfo_line "Cached:" n c ∈ buffers) →
        (buffers.foldl read_buffer m).mem_cached = 1024 * (c : Int)) := by
  induction buffers with
  | nil =>
    intro m _
    simp
  | cons x xs ih =>
    intro m hok
    have hx := hok x (List.mem_cons_self _ _)
    have hxs : ∀ buffer ∈ xs, _ := fun buffer hm => hok buffer (List.mem_cons_of_mem _ hm)
    obtain ⟨i1, i2, i3, i4⟩ := ih (read_buffer m x) hxs
    rw [List.foldl_cons]
    have keepT : m.mem_total = 1024 * (t : Int) →
        (read_buffer m x).mem_total = 1024 * (t : Int) := by
      intro h
      rcases hx with hi | ⟨n, rfl⟩ | ⟨n, rfl⟩ | ⟨n, rfl⟩ | ⟨n, rfl⟩
      · rw [read_buffer_ignored m x hi]; exact h
      · rw [read_buffer_total m n t ht]
      · rw [read_buffer_free m n f hf]; exact h
      · rw [read_buffer_buffers m n b hb]; exact h
      · rw [read_buffer_cached m n c hc]; exact h
    have keepF : m.mem_free = 1024 * (f : Int) →
        (read_buffer m x).mem_free = 1024 * (f : Int) := by
      intro h
      rcases hx with hi | ⟨n, rfl⟩ | ⟨n, rfl⟩ | ⟨n, rfl⟩ | ⟨n, rfl⟩
      · rw [read_buffer_ignored m x hi]; exact h
      · rw [read_buffer_total m n t ht]; exact h
      · rw [read_buffer_free m n f hf]
      · rw [read_buffer_buffers m n b hb]; exact h
      · rw [read_buffer_cached m n c hc]; exact h
    have keepB : m.mem_buffered = 1024 * (b : Int) →
        (read_buffer m x).mem_buffered = 1024 * (b : Int) := by
      intro h
      rcases hx with hi | ⟨n, rfl⟩ | ⟨n, rfl⟩ | ⟨n, rfl⟩ | ⟨n, rfl⟩
      · rw [read_buffer_ignored m x hi]; exact h
      · rw [read_buffer_total m n t ht]; exact h
      · rw [read_buffer_free m n f hf]; exact h
      · rw [read_buffer_buffers m n b hb]
      · rw [read_buffer_cached m n c hc]; exact h
    have keepC : m.mem_cached = 1024 * (c : Int) →
        (read_buffer m x).mem_cached = 1024 * (c : Int) := by
      intro h
      rcases hx with hi | ⟨n, rfl⟩ | ⟨n, rfl⟩ | ⟨n, rfl⟩ | ⟨n, rfl⟩
      · rw [read_buffer_ignored m x hi]; exact h
      · rw [read_buffer_total m n t ht]; exact h
      · rw [read_buffer_free m n f hf]; exact h
      · rw [read_buffer_buffers m n b hb]; exact h
      · rw [read_buffer_cached m n c hc]
    refine ⟨?_, ?_, ?_, ?_⟩
    · rintro (h | ⟨n, hn⟩)
      · exact i1 (Or.inl (keepT h))
      · rcases List.mem_cons.mp hn with he | hm
        · exact i1 (Or.inl (by rw [← he, read_buffer_total m n t ht]))
        · exact i1 (Or.inr ⟨n, hm⟩)
    · rintro (h | ⟨n, hn⟩)
      · exact i2 (Or.inl (keepF h))
      · rcases List.mem_cons.mp hn with he | hm
        · exact i2 (Or.inl (by rw [← he, read_buffer_free m n f hf]))
        · exact i2 (Or.inr ⟨n, hm⟩)
    · rintro (h | ⟨n, hn⟩)
      · exact i3 (Or.inl (keepB h))
      · rcases List.mem_cons.mp hn with he | hm
        · exact i3 (Or.inl (by rw [← he, read_buffer_buffers m n b hb]))
        · exact i3 (Or.inr ⟨n, hm⟩)
    · rintro (h | ⟨n, hn⟩)
      · exact i4 (Or.inl (keepC h))
      · rcases List.mem_cons.mp hn with he | hm
        · exact i4 (Or.inl (by rw [← he, read_buffer_cached m n c hc]))
        · exact i4 (Or.inr ⟨n, hm⟩)

/-- The parsing loop stores `1024 * t`, `1024 * f`, `1024 * b`, `1024 * c` for a file
that carries the numbers `t`, `f`, `b`, `c`. -/
theorem read_meminfo_carries (buffers : List (List Char)) (t f b c : Nat)
    (ht : t < 2 ^ 50) (hf : f < 2 ^ 50) (hb : b < 2 ^ 50) (hc : c < 2 ^ 50)
    (h : meminfo_carries buffers t f b c) :
    read_meminfo buffers
      = { mem_total := 1024 * (t : Int), mem_free := 1024 * (f : Int),
          mem_buffered := 1024 * (b : Int), mem_cached := 1024 * (c : Int) } := by
  obtain ⟨hok, h1, h2, h3, h4⟩ := h
  obtain ⟨r1, r2, r3, r4⟩ := foldl_read_buffer_carries t f b c ht hf hb hc buffers
    { mem_total := 0, mem_free := 0, mem_buffered := 0, mem_cached := 0 } hok
  have e1 := r1 (Or.inr h1)
  have e2 := r2 (Or.inr h2)
  have e3 := r3 (Or.inr h3)
  have e4 := r4 (Or.inr h4)
  unfold read_meminfo
  cases hres : List.foldl read_buffer
    { mem_total := 0, mem_free := 0, mem_buffered := 0, mem_cached := 0 } buffers with
  | mk a1 a2 a3 a4 =>
    rw [hres] at e1 e2 e3 e4
    simp only at e1 e2 e3 e4
    rw [e1, e2, e3, e4]

/-- C1. Virtual-file variant with absolute values enabled: for every `/proc/meminfo`
whose `MemTotal`, `MemFree`, `Buffers` and `Cached` lines carry the numbers `t`, `f`,
`b`, `c` (below `2 ^ 50` kB), the parsed byte values are `1024 * t`, `1024 * f`,
`1024 * b`, `1024 * c`; when the total is at least the sum of the other three the tick
returns `0` and its absolute samples are exactly `used = T - (F + B + C)`,
`buffered = B`, `cached = C`, `free = F`, in this order (and these are all its samples
when percentages are disabled); when the total is smaller the tick dispatches nothing
at all. -/
theorem linux_tick (cfg : Config) (buffers : List (List Char)) (t f b c : Nat)
    (ht : t < 2 ^ 50) (hf : f < 2 ^ 50) (hb : b < 2 ^ 50) (hc : c < 2 ^ 50)
    (h : meminfo_carries buffers t f b c) (habs : cfg.values_absolute = true) :
    read_meminfo buffers
      = { mem_total := 1024 * (t : Int), mem_free := 1024 * (f : Int),
          mem_buffered := 1024 * (b : Int), mem_cached := 1024 * (c : Int) }
    ∧ (1024 * (f : Int) + 1024 * (b : Int) + 1024 * (c : Int) ≤ 1024 * (t : Int) →
        (memory_read_linux cfg (some buffers)).1 = 0
        ∧ absolute_samples (memory_read_linux cfg (some buffers)).2
          = [ ⟨"used", gauge_of_int
                (1024 * (t : Int) - (1024 * (f : Int) + 1024 * (b : Int) + 1024 * (c : Int)))⟩,
              ⟨"buffered", gauge_of_int (1024 * (b : Int))⟩,
              ⟨"cached", gauge_of_int (1024 * (c : Int))⟩,
              ⟨"free", gauge_of_int (1024 * (f : Int))⟩ ]
        ∧ (cfg.values_percentage = false →
          (memory_read_linux cfg (some buffers)).2
            = [ ⟨"used", gauge_of_int
                  (1024 * (t : Int) - (1024 * (f : Int) + 1024 * (b : Int) + 1024 * (c : Int)))⟩,
                ⟨"buffered", gauge_of_int (1024 * (b : Int))⟩,
                ⟨"cached", gauge_of_int (1024 * (c : Int))⟩,
                ⟨"free", gauge_of_int (1024 * (f : Int))⟩ ]))
    ∧ (1024 * (t : Int) < 1024 * (f : Int) + 1024 * (b : Int) + 1024 * (c : Int) →
        memory_read_linux cfg (some buffers) = (0, [])) := by
  have hm := read_meminfo_carries buffers t f b c ht hf hb hc h
  have e50 : (2 : Nat) ^ 50 = 1125899906842624 := by norm_num
  have e63 : ((2 : Int) ^ 63) = 9223372036854775808 := by norm_num
  rw [e50] at ht hf hb hc
  have w1 : wrap64 (1024 * (f : Int) + 1024 * (b : Int)) = 1024 * (f : Int) + 1024 * (b : Int) :=
    wrap64_eq_self (by rw [e63]; omega) (by rw [e63]; omega)
  have w2 : wrap64 (1024 * (f : Int) + 1024 * (b : Int) + 1024 * (c : Int))
      = 1024 * (f : Int) + 1024 * (b : Int) + 1024 * (c : Int) :=
    wrap64_eq_self (by rw [e63]; omega) (by rw [e63]; omega)
  have w3 : wrap64 (1024 * (t : Int) - (1024 * (f : Int) + 1024 * (b : Int) + 1024 * (c : Int)))
      = 1024 * (t : Int) - (1024 * (f : Int) + 1024 * (b : Int) + 1024 * (c : Int)) :=
    wrap64_eq_self (by rw [e63]; omega) (by rw [e63]; omega)
  refine ⟨hm, ?_, ?_⟩
  · intro hle
    refine ⟨?_, ?_, ?_⟩
    · unfold memory_read_linux
      simp only []
      split_ifs <;> rfl
    · rw [absolute_samples_linux, hm]
      simp only [w1, w2, w3]
      rw [if_pos ⟨hle, habs⟩]
    · intro hv
      unfold memory_read_linux
      simp only [hm, w1, w2, w3, habs, hv]
      rw [if_pos hle]
      rfl
  · intro hlt
    unfold memory_read_linux
    simp only [hm, w1, w2]
    rw [if_neg (not_le.mpr hlt)]

/-- Instance of C1 at the four lines of the spec: `free = 204800000`,
`buffered = 51200000`, `cached = 153600000`, `used = 614400000`. -/
theorem linux_tick_witness :
    (memory_read_linux Config.default
      (some ["MemTotal: 1000000 kB\n".toList, "MemFree: 200000 kB\n".toList,
        "Buffers: 50000 kB\n".toList, "Cached: 150000 kB\n".toList])).2
      = [ ⟨"used", some 614400000⟩, ⟨"buffered", some 51200000⟩,
          ⟨"cached", some 153600000⟩, ⟨"free", some 204800000⟩ ] := by
  have hc : meminfo_carries
      ["MemTotal: 1000000 kB\n".toList, "MemFree: 200000 kB\n".toList,
        "Buffers: 50000 kB\n".toList, "Cached: 150000 kB\n".toList]
      1000000 200000 50000 150000 := by
    refine ⟨?_, ⟨0, by decide⟩, ⟨0, by decide⟩, ⟨0, by decide⟩, ⟨0, by decide⟩⟩
    intro buffer hb
    simp only [List.mem_cons, List.mem_singleton, List.not_mem_nil, or_false] at hb
    rcases hb with rfl | rfl | rfl | rfl
    · exact Or.inr (Or.inl ⟨0, by decide⟩)
    · exact Or.inr (Or.inr (Or.inl ⟨0, by decide⟩))
    · exact Or.inr (Or.inr (Or.inr (Or.inl ⟨0, by decide⟩)))
    · exact Or.inr (Or.inr (Or.inr (Or.inr ⟨0, by decide⟩)))
  have h := linux_tick Config.default _ 1000000 200000 50000 150000
    (by norm_num) (by norm_num) (by norm_num) (by norm_num) hc rfl
  rw [(h.2.1 (by norm_num)).2.2 rfl]
  norm_num [gauge_of_int]

end Memory
